import Mathlib

/-!
Verification of the Ancient Bharat multiplayer game server
(`server/ancient_bharat_server.py`, `server/integrated_ancient_bharat_server.py`,
`server/ancient_bharat_config.py`, `server/ai_3d_model_agent.py`).

The Python code is shallowly embedded: Python `dict`s become insertion-ordered
association lists, floats become rationals (the code never does arithmetic on
coordinates beyond comparisons, so this is exact), `time.time()` becomes an
explicit `now : ℚ` parameter, websocket sends become effects in a log, and a
function `F : String → Bool` says which sockets' `send_text` raises.  Python
exceptions (`KeyError`, `AttributeError`, `TypeError`, failed sends) are
modelled with an explicit `Option PyErr` component threaded through the
handlers, so that state mutated before the raise survives, exactly as in
Python where dataclass mutation is in place.
-/

/-- Python exception kinds that the embedded code can raise. -/
inductive PyErr where
  | keyError
  | attributeError
  | typeError
  | wsSendError
  deriving DecidableEq, Repr

/-- Observable side effects of the server code: a websocket `send_text`
carrying a JSON object whose `"type"` field is `mtype`, or a write of a file
on disk. -/
inductive Effect where
  | send (pid : String) (mtype : String)
  | fileWrite (path : String)
  deriving DecidableEq, Repr

/-- Lookup in an insertion-ordered association list (Python `d[k]` /
`d.get(k)`). -/
def getKey {α : Type} : List (String × α) → String → Option α
  | [], _ => none
  | (k, v) :: rest, key => if k = key then some v else getKey rest key

/-- Python `k in d`. -/
def hasKey {α : Type} (l : List (String × α)) (key : String) : Bool :=
  (getKey l key).isSome

/-- Python `d[k] = v`: replace in place if the key exists, else append. -/
def setKey {α : Type} : List (String × α) → String → α → List (String × α)
  | [], key, v => [(key, v)]
  | (k, w) :: rest, key, v =>
      if k = key then (key, v) :: rest else (k, w) :: setKey rest key v

/-- Python `del d[k]`: remove the (first) entry with the given key. -/
def delKey {α : Type} : List (String × α) → String → List (String × α)
  | [], _ => []
  | (k, w) :: rest, key => if k = key then rest else (k, w) :: delKey rest key

/-- Keys of an association list. -/
def keysOf {α : Type} (l : List (String × α)) : List String := l.map Prod.fst

/-- Python `str.strip()` restricted to ASCII whitespace, which is all the
game code ever sends. -/
def pyStrip (s : String) : String :=
  String.mk (((s.data.dropWhile Char.isWhitespace).reverse.dropWhile
    Char.isWhitespace).reverse)

/-- The five regions, defined identically (same names, same `.value`
strings) by the `Region` enums of `ancient_bharat_server.py` and
`integrated_ancient_bharat_server.py`. -/
inductive Region where
  | dust_plains
  | himalayan_peaks
  | indrapura_city
  | narmada_forest
  | ocean_frontier
  deriving DecidableEq, Repr

/-- The `.value` string of each `Region` enum member. -/
def Region.value : Region → String
  | .dust_plains => "dust_plains"
  | .himalayan_peaks => "himalayan_peaks"
  | .indrapura_city => "indrapura_city"
  | .narmada_forest => "narmada_forest"
  | .ocean_frontier => "ocean_frontier"

/-- The `Position` dataclass (same in both server files). -/
structure Position where
  x : ℚ := 0
  y : ℚ := 0
  z : ℚ := 0
  deriving DecidableEq, Repr

namespace Cfg

/-- The `ServerConfig` dataclass of `ancient_bharat_config.py` with its
default values (strings and floats kept as written). -/
structure ServerConfig where
  host : String := "0.0.0.0"
  port : Int := 8000
  max_players : Int := 100
  world_size : Int := 1000
  auto_save_interval : Int := 300
  enable_weather_system : Bool := true
  enable_day_night_cycle : Bool := true
  enable_cultural_events : Bool := true
  region_transition_distance : ℚ := 200
  npc_interaction_radius : ℚ := 10
  max_chat_history : Nat := 100
  chat_rate_limit : Int := 5
  chunk_size : Int := 16
  max_chunks_loaded : Int := 100
  player_update_rate : Int := 30
  deriving Repr

/-- The `WorldConfig` dataclass of `ancient_bharat_config.py` (the fields the
region logic reads, with their default values). -/
structure WorldConfig where
  terrain_seed : Int := 12345
  terrain_scale : ℚ := 2/100
  max_elevation : ℚ := 100
  dust_plains_boundary : ℚ := -200
  ocean_frontier_boundary : ℚ := 200
  himalayan_peaks_boundary : ℚ := 200
  narmada_forest_boundary : ℚ := -100
  max_objects_per_chunk : Int := 10
  special_object_chance : ℚ := 3/10
  weather_change_interval : Int := 1800
  deriving Repr

/-- The default server configuration (`ConfigManager` falls back to the
dataclass defaults when no config files exist). -/
def serverConfig : ServerConfig := {}

/-- The default world configuration. -/
def worldConfig : WorldConfig := {}

/-- `ConfigManager.is_in_region`: membership test for a named region, keyed
on the region name string exactly as in the source (any unknown string falls
into the `indrapura_city` rectangle branch). -/
def is_in_region (w : WorldConfig) (x z : ℚ) (region : String) : Bool :=
  if region = "dust_plains" then
    decide (x < w.dust_plains_boundary)
  else if region = "ocean_frontier" then
    decide (x > w.ocean_frontier_boundary)
  else if region = "himalayan_peaks" then
    decide (z > w.himalayan_peaks_boundary)
  else if region = "narmada_forest" then
    decide (z < w.narmada_forest_boundary)
  else
    decide (w.dust_plains_boundary ≤ x ∧ x ≤ w.ocean_frontier_boundary ∧
      w.narmada_forest_boundary ≤ z ∧ z ≤ w.himalayan_peaks_boundary)

/-- One entry of `GameDataManager.player_data`, the shape written by
`GameDataManager.save_player_progress`. -/
structure SavedPlayer where
  name : String
  level : Int
  experience : Int
  regions_visited : List String
  quests_completed : List String
  npc_reputation : List (String × Int)
  last_position : Position
  play_time : ℚ
  last_login : ℚ
  deriving DecidableEq, Repr

/-- The dict argument of `GameDataManager.save_player_progress`; each field is
optional because the method reads every key with `.get` and a default. -/
structure PlayerDataArg where
  name : Option String := none
  level : Option Int := none
  experience : Option Int := none
  regions_visited : Option (List String) := none
  quests_completed : Option (List String) := none
  npc_reputation : Option (List (String × Int)) := none
  last_position : Option Position := none
  play_time : Option ℚ := none
  last_login : Option ℚ := none

/-- `GameDataManager.save_player_progress`: store the player's progress in the
in-memory `player_data` dict (this method performs no file I-O). -/
def save_player_progress (player_data : List (String × SavedPlayer))
    (player_id : String) (d : PlayerDataArg) : List (String × SavedPlayer) :=
  setKey player_data player_id
    { name := d.name.getD ("Player_" ++ player_id.take 8)
      level := d.level.getD 1
      experience := d.experience.getD 0
      regions_visited := d.regions_visited.getD ["ocean_frontier"]
      quests_completed := d.quests_completed.getD []
      npc_reputation := d.npc_reputation.getD []
      last_position := d.last_position.getD { x := 0, y := 2, z := 0 }
      play_time := d.play_time.getD 0
      last_login := d.last_login.getD 0 }

/-- `GameDataManager.save_all_data`: the file writes it performs, in order.
Each is a single shared JSON file under `game_data/`, holding the data of all
players (resp. the world, quests, NPC states) at once. -/
def save_all_data : List Effect :=
  [Effect.fileWrite "game_data/player_data.json",
   Effect.fileWrite "game_data/world_state.json",
   Effect.fileWrite "game_data/quest_progress.json",
   Effect.fileWrite "game_data/npc_states.json"]

end Cfg

namespace AB

/-!
Model of `ancient_bharat_server.py` (`AncientBharatServer`).  Websockets are
identified by opaque strings; `Env.Ffail w` says whether `send_text` on
websocket `w` raises.  In `Effect.send` for `_broadcast_to_all` the first
component is the connection id (that loop iterates over `self.connections`),
elsewhere it is the player id.
-/

/-- The `Player` dataclass of `ancient_bharat_server.py`. -/
structure Player where
  player_id : String
  name : String
  position : Position
  current_region : Region := .ocean_frontier
  websocket : Option String := none
  last_active : ℚ := 0
  deriving DecidableEq, Repr

/-- The mutable server state: `self.players` and `self.connections`. -/
structure ServerState where
  players : List (String × Player)
  connections : List String
  deriving DecidableEq, Repr

/-- Ambient environment: which websockets fail, and the current time. -/
structure Env where
  Ffail : String → Bool
  now : ℚ

/-- The nested `position` dict of a movement message; every field optional
because the handler indexes `pos_data["x"]` etc., raising `KeyError` when a
key is missing. -/
structure PosDict where
  x : Option ℚ := none
  y : Option ℚ := none
  z : Option ℚ := none
  deriving DecidableEq, Repr

/-- An inbound message for this server (the fields its handlers read). -/
structure Message where
  mtype : Option String := none
  position : Option PosDict := none
  message : Option String := none
  deriving DecidableEq, Repr

/-- `AncientBharatServer.get_region_from_position`. -/
def get_region_from_position (pos : Position) : Region :=
  if pos.x < -200 then .dust_plains
  else if pos.x > 200 then .ocean_frontier
  else if pos.z > 200 then .himalayan_peaks
  else if pos.z < -100 then .narmada_forest
  else .indrapura_city

/-- `AncientBharatServer._broadcast_to_all`: send to every connection,
collect the failing connections, then remove each failing connection from
`self.connections` (the `self.players` dict is not touched). -/
def broadcast_to_all (env : Env) (mtype : String) (st : ServerState) :
    ServerState × List Effect :=
  if st.connections = [] then (st, [])
  else
    let sends := (st.connections.filter (fun c => !(env.Ffail c))).map
      (fun c => Effect.send c mtype)
    let failed := st.connections.filter env.Ffail
    let conns := failed.foldl
      (fun acc c => if c ∈ acc then acc.erase c else acc) st.connections
    ({ st with connections := conns }, sends)

/-- `AncientBharatServer.remove_player`: drop the player from the dict and
its websocket from the connections list, then broadcast `player_left`. -/
def remove_player (env : Env) (pid : String) (st : ServerState) :
    ServerState × List Effect :=
  match getKey st.players pid with
  | none => (st, [])
  | some player =>
      let conns1 := match player.websocket with
        | some w => if w ∈ st.connections then st.connections.erase w
                    else st.connections
        | none => st.connections
      broadcast_to_all env "player_left"
        { players := delKey st.players pid, connections := conns1 }

/-- `AncientBharatServer._send_to_player`: send to one player; on failure the
exception is caught and the player is removed. -/
def send_to_player (env : Env) (pid mtype : String) (st : ServerState) :
    ServerState × List Effect :=
  match getKey st.players pid with
  | none => (st, [])
  | some player =>
      match player.websocket with
      | none => (st, [])
      | some w =>
          if env.Ffail w then remove_player env pid st
          else (st, [Effect.send pid mtype])

/-- `AncientBharatServer._broadcast_to_others`: send to every player other
than `exclude` that has a websocket, then `remove_player` each player whose
send failed. -/
def broadcast_to_others (env : Env) (exclude mtype : String)
    (st : ServerState) : ServerState × List Effect :=
  let sends := st.players.filterMap (fun e =>
    match e.2.websocket with
    | some w =>
        if e.1 ≠ exclude && !(env.Ffail w) then some (Effect.send e.1 mtype)
        else none
    | none => none)
  let failed := st.players.filterMap (fun e =>
    match e.2.websocket with
    | some w => if e.1 ≠ exclude && env.Ffail w then some e.1 else none
    | none => none)
  let r := failed.foldl (fun (acc : ServerState × List Effect) p =>
      let r1 := remove_player env p acc.1
      (r1.1, acc.2 ++ r1.2)) (st, [])
  (r.1, sends ++ r.2)

/-- `AncientBharatServer.handle_player_movement`.  The result's third
component records an escaped exception (`KeyError` when the nested position
dict lacks a coordinate); the caller's `except Exception` in the websocket
loop prints it and keeps the session alive. -/
def handle_player_movement (env : Env) (st : ServerState) (pid : String)
    (m : Message) : ServerState × List Effect × Option PyErr :=
  match getKey st.players pid with
  | none => (st, [], none)
  | some player =>
      match m.position with
      | none =>
          let r := broadcast_to_others env pid "player_moved" st
          (r.1, r.2, none)
      | some pd =>
          match pd.x, pd.y, pd.z with
          | some px, some py, some pz =>
              let newPos : Position := { x := px, y := py, z := pz }
              let p1 := { player with position := newPos, last_active := env.now }
              let st1 := { st with players := setKey st.players pid p1 }
              let newRegion := get_region_from_position newPos
              if newRegion ≠ player.current_region then
                let p2 := { p1 with current_region := newRegion }
                let st2 := { st1 with players := setKey st1.players pid p2 }
                let r3 := send_to_player env pid "region_changed" st2
                let r4 := broadcast_to_others env pid "player_moved" r3.1
                (r4.1, r3.2 ++ r4.2, none)
              else
                let r4 := broadcast_to_others env pid "player_moved" st1
                (r4.1, r4.2, none)
          | _, _, _ => (st, [], some PyErr.keyError)

end AB

namespace IS

/-!
Model of `integrated_ancient_bharat_server.py` (`IntegratedAncientBharatServer`).
`connected_players`, `chat_history` and the `GameDataManager.player_data` dict
form the state.  Sends to a player's own websocket raise exactly when
`Env.F pid` is true; the subsystems the claims do not touch (world generator,
NPC manager, quest system, and the handlers for quest/voice/karma/procedural/3d
messages) enter as opaque parameters of `Env`, so every theorem below holds
for all of their behaviours.

`broadcast_to_all` and `disconnect_player` are mutually recursive in the
source (a disconnect broadcasts `player_left`, which may prune further dead
connections); the recursion is bounded by the number of players whose socket
fails, so the model uses a fuel parameter with `connected_players.length + 1`
fuel, which the lemmas show is always sufficient.
-/

/-- The `Player` dataclass of `integrated_ancient_bharat_server.py`; the
`websocket` field stores an opaque connection tag. -/
structure Player where
  player_id : String
  name : String
  position : Position
  current_region : Region := .ocean_frontier
  websocket : Option String := none
  last_active : ℚ := 0
  level : Int := 1
  experience : Int := 0
  regions_visited : List String := ["ocean_frontier"]
  deriving DecidableEq, Repr

/-- A Python value stored in a `Player` attribute. -/
inductive PyVal where
  | str (s : String)
  | num (q : ℚ)
  | int (i : Int)
  | pos (p : Position)
  | region (r : Region)
  | strList (l : List String)
  | wsock (w : Option String)
  deriving DecidableEq, Repr

/-- Python attribute access on a `Player` instance: exactly the fields the
`Player` dataclass declares, and nothing else (any other name raises
`AttributeError`).  The dataclass defines `current_region` but no `region`. -/
def Player.attr (p : Player) : String → Option PyVal
  | "player_id" => some (.str p.player_id)
  | "name" => some (.str p.name)
  | "position" => some (.pos p.position)
  | "current_region" => some (.region p.current_region)
  | "websocket" => some (.wsock p.websocket)
  | "last_active" => some (.num p.last_active)
  | "level" => some (.int p.level)
  | "experience" => some (.int p.experience)
  | "regions_visited" => some (.strList p.regions_visited)
  | _ => none

/-- One chat message as stored in `self.chat_history`. -/
structure ChatMsg where
  mtype : String
  player_id : String
  player_name : String
  message : String
  timestamp : ℚ
  region : Region
  deriving DecidableEq, Repr

/-- The server state the claims are about: the connected-players dict, the
chat history list, and the data manager's in-memory `player_data` dict. -/
structure ServerState where
  connected_players : List (String × Player)
  chat_history : List ChatMsg
  player_data : List (String × Cfg.SavedPlayer)
  deriving DecidableEq, Repr

/-- An inbound JSON message (the fields read by the handlers modelled here;
unmodelled handlers receive the message through the `Env` hooks). -/
structure Message where
  mtype : Option String := none
  x : Option ℚ := none
  y : Option ℚ := none
  z : Option ℚ := none
  message : Option String := none
  npc_id : Option String := none
  deriving DecidableEq, Repr

/-- Ambient environment: socket failure, time, and the subsystems outside the
claims (the world-object query and the six handler coroutines the claims
never inspect). -/
structure Env where
  F : String → Bool
  now : ℚ
  nearby20 : ℚ → ℚ → Bool
  npcRest : ServerState → String → Message → ServerState × List Effect × Option PyErr
  hookQuest : ServerState → String → Message → ServerState × List Effect × Option PyErr
  hookVoice : ServerState → String → Message → ServerState × List Effect × Option PyErr
  hookKarma : ServerState → String → Message → ServerState × List Effect × Option PyErr
  hookNpcVoice : ServerState → String → Message → ServerState × List Effect × Option PyErr
  hookProcedural : ServerState → String → Message → ServerState × List Effect × Option PyErr
  hook3d : ServerState → String → Message → ServerState × List Effect × Option PyErr

/-- The chat message record `handle_chat_message` builds for a sender
`p` and stripped text. -/
def mkChatMsg (env : Env) (pid : String) (p : Player) (text : String) :
    ChatMsg :=
  { mtype := "chat_message", player_id := pid, player_name := p.name,
    message := text, timestamp := env.now, region := p.current_region }

/-- `IntegratedAncientBharatServer.get_region_from_position`: delegate to
`ConfigManager.is_in_region` with the default `WorldConfig`. -/
def get_region_from_position (x z : ℚ) : Region :=
  if Cfg.is_in_region Cfg.worldConfig x z "dust_plains" then .dust_plains
  else if Cfg.is_in_region Cfg.worldConfig x z "ocean_frontier" then .ocean_frontier
  else if Cfg.is_in_region Cfg.worldConfig x z "himalayan_peaks" then .himalayan_peaks
  else if Cfg.is_in_region Cfg.worldConfig x z "narmada_forest" then .narmada_forest
  else .indrapura_city

/-- The number of connected players whose socket fails; the quantity that
bounds the broadcast/disconnect recursion. -/
def countFail (env : Env) (st : ServerState) : Nat :=
  (st.connected_players.filter (fun e => env.F e.1)).length

mutual

/-- `IntegratedAncientBharatServer.broadcast_to_all` with explicit fuel:
send to every connected player, collecting the players whose send raised,
then `disconnect_player` each of them. -/
def broadcastAllFuel (env : Env) (mtype : String) :
    Nat → ServerState → ServerState × List Effect
  | 0, st => (st, [])
  | fuel + 1, st =>
      let sends := (st.connected_players.filter (fun e => !(env.F e.1))).map
        (fun e => Effect.send e.1 mtype)
      let disc := (st.connected_players.filter (fun e => env.F e.1)).map Prod.fst
      let r := disconnectLoopFuel env fuel disc st
      (r.1, sends ++ r.2)
  termination_by fuel _ => (fuel, 0)

/-- The cleanup loop of `broadcast_to_all` / `broadcast_to_others`:
`disconnect_player` each collected player id in order. -/
def disconnectLoopFuel (env : Env) (fuel : Nat) :
    List String → ServerState → ServerState × List Effect
  | [], st => (st, [])
  | pid :: rest, st =>
      let r1 := disconnectPlayerFuel env fuel pid st
      let r2 := disconnectLoopFuel env fuel rest r1.1
      (r2.1, r1.2 ++ r2.2)
  termination_by l _ => (fuel, l.length + 2)

/-- `IntegratedAncientBharatServer.disconnect_player` with explicit fuel:
save the player's progress into the data manager's in-memory dict, delete the
player from `connected_players`, and broadcast `player_left` to everyone. -/
def disconnectPlayerFuel (env : Env) (fuel : Nat) (pid : String)
    (st : ServerState) : ServerState × List Effect :=
  match getKey st.connected_players pid with
  | none => (st, [])
  | some player =>
      let arg : Cfg.PlayerDataArg :=
        { name := some player.name
          level := some player.level
          experience := some player.experience
          regions_visited := some player.regions_visited
          last_position := some player.position
          last_login := some env.now }
      let pd1 := Cfg.save_player_progress st.player_data player.player_id arg
      let st1 := { st with player_data := pd1 }
      let st2 := { st1 with connected_players := delKey st1.connected_players pid }
      broadcastAllFuel env "player_left" fuel st2
  termination_by (fuel, 1)

end

/-- `IntegratedAncientBharatServer.broadcast_to_all` (fuel instantiated). -/
def broadcast_to_all (env : Env) (mtype : String) (st : ServerState) :
    ServerState × List Effect :=
  broadcastAllFuel env mtype (st.connected_players.length + 1) st

/-- `IntegratedAncientBharatServer.disconnect_player` (fuel instantiated). -/
def disconnect_player (env : Env) (pid : String) (st : ServerState) :
    ServerState × List Effect :=
  disconnectPlayerFuel env (st.connected_players.length + 1) pid st

/-- `IntegratedAncientBharatServer.broadcast_to_others`: like
`broadcast_to_all` but skipping the sender. -/
def broadcast_to_others (env : Env) (sender mtype : String)
    (st : ServerState) : ServerState × List Effect :=
  let sends := (st.connected_players.filter
      (fun e => decide (e.1 ≠ sender) && !(env.F e.1))).map
    (fun e => Effect.send e.1 mtype)
  let disc := (st.connected_players.filter
      (fun e => decide (e.1 ≠ sender) && env.F e.1)).map Prod.fst
  let r := disconnectLoopFuel env (st.connected_players.length + 1) disc st
  (r.1, sends ++ r.2)

end IS

namespace IS

/-- `IntegratedAncientBharatServer.handle_player_movement`.  Each coordinate
present in the message replaces the stored one, each absent coordinate keeps
its previous value (`movement_data.get("x", player.position.x)` etc.).  When
the new position stays in the player's region the handler goes on to the
nearby-object notification and the broadcast to the other players.  When the
region changes, the handler mutates the player (region, visited list,
exploration reward), sends the `region_changed` notification, and then calls
`send_nearby_npcs` — whose first statement is
`self.npc_manager.get_npcs_in_region(...)`.  But `self.npc_manager` is
`enhanced_npcs.enhanced_npc_manager`, an instance of the `NPCManager` class
of `enhanced_npcs.py`, which defines no `get_npcs_in_region` (only the
unrelated `NPCManager` of `ancient_bharat_npcs.py` does); the lookup raises
`AttributeError` before any further send, so `send_available_quests`, the
nearby-object check and the movement broadcast are unreachable on a region
change.  The sends to the mover's own socket are not wrapped in `try`, so a
failing own socket likewise raises out of the handler. -/
def handle_player_movement (env : Env) (st : ServerState) (pid : String)
    (m : Message) : ServerState × List Effect × Option PyErr :=
  match getKey st.connected_players pid with
  | none => (st, [], none)
  | some player =>
      let pos1 : Position :=
        { x := m.x.getD player.position.x
          y := m.y.getD player.position.y
          z := m.z.getD player.position.z }
      let p1 := { player with position := pos1, last_active := env.now }
      let st1 := { st with connected_players := setKey st.connected_players pid p1 }
      let newRegion := get_region_from_position pos1.x pos1.z
      if newRegion ≠ player.current_region then
        let regionName := newRegion.value
        let p2 :=
          if regionName ∈ p1.regions_visited then
            { p1 with current_region := newRegion }
          else
            { p1 with current_region := newRegion
                      regions_visited := p1.regions_visited ++ [regionName]
                      experience := p1.experience + 100 }
        let st2 := { st1 with connected_players := setKey st1.connected_players pid p2 }
        if env.F pid then (st2, [], some PyErr.wsSendError)
        else (st2, [Effect.send pid "region_changed"], some PyErr.attributeError)
      else
        if env.nearby20 pos1.x pos1.z then
          if env.F pid then (st1, [], some PyErr.wsSendError)
          else
            let r := broadcast_to_others env pid "player_moved" st1
            (r.1, [Effect.send pid "nearby_objects"] ++ r.2, none)
        else
          let r := broadcast_to_others env pid "player_moved" st1
          (r.1, r.2, none)

/-- `IntegratedAncientBharatServer.handle_chat_message`: strip the message,
ignore empty ones, append to `chat_history`, `pop(0)` when the configured
bound is exceeded, and broadcast to everyone. -/
def handle_chat_message (env : Env) (st : ServerState) (pid : String)
    (m : Message) : ServerState × List Effect × Option PyErr :=
  match getKey st.connected_players pid with
  | none => (st, [], none)
  | some player =>
      let message := pyStrip (m.message.getD "")
      if message = "" then (st, [], none)
      else
        let chat : ChatMsg :=
          { mtype := "chat_message", player_id := pid, player_name := player.name
            message := message, timestamp := env.now
            region := player.current_region }
        let h2 := st.chat_history ++ [chat]
        let h3 := if h2.length > Cfg.serverConfig.max_chat_history then
          h2.drop 1 else h2
        let st1 := { st with chat_history := h3 }
        let r := broadcast_to_all env "chat_message" st1
        (r.1, r.2, none)

/-- `IntegratedAncientBharatServer.handle_npc_interaction`.  After the guards
on connectivity and a falsy `npc_id`, the handler builds a `player_data` dict
reading `player.level`, `player.experience`, `getattr(player, "tamed_beasts",
[])` (safe, has a default) and `player.region` in that order; the last is an
attribute the `Player` dataclass does not define, so an `AttributeError`
escapes before any state change or send.  The rest of the handler (NPC call,
interaction recording, response send) is unreachable and enters as the
opaque `Env.npcRest`. -/
def handle_npc_interaction (env : Env) (st : ServerState) (pid : String)
    (m : Message) : ServerState × List Effect × Option PyErr :=
  match getKey st.connected_players pid with
  | none => (st, [], none)
  | some player =>
      match m.npc_id with
      | none => (st, [], none)
      | some nid =>
          if nid = "" then (st, [], none)
          else
            match player.attr "level", player.attr "experience",
                player.attr "region" with
            | some _, some _, some _ => env.npcRest st pid m
            | _, _, _ => (st, [], some PyErr.attributeError)

/-- The `"type"` strings the `if/elif` chain of
`IntegratedAncientBharatServer.handle_websocket_message` tests for, in
order. -/
def handledTypes : List String :=
  ["movement", "chat", "npc_interaction", "quest_action", "voice_chat",
   "karma_action", "npc_voice_interaction", "procedural_content",
   "3d_model_request", "world_interaction"]

/-- One iteration of `IntegratedAncientBharatServer.handle_websocket_message`
on an already-parsed message: dispatch on `message.get("type")`; the
`world_interaction` branch only reads `object_id` and does nothing; the
`else` branch only prints.  An exception from a handler is caught by the
loop's `except Exception`, which disconnects the player; the boolean result
says whether the session survives the iteration. -/
def handle_websocket_message_step (env : Env) (st : ServerState)
    (pid : String) (m : Message) : ServerState × List Effect × Bool :=
  let r :=
    if m.mtype = some "movement" then handle_player_movement env st pid m
    else if m.mtype = some "chat" then handle_chat_message env st pid m
    else if m.mtype = some "npc_interaction" then
      handle_npc_interaction env st pid m
    else if m.mtype = some "quest_action" then env.hookQuest st pid m
    else if m.mtype = some "voice_chat" then env.hookVoice st pid m
    else if m.mtype = some "karma_action" then env.hookKarma st pid m
    else if m.mtype = some "npc_voice_interaction" then env.hookNpcVoice st pid m
    else if m.mtype = some "procedural_content" then env.hookProcedural st pid m
    else if m.mtype = some "3d_model_request" then env.hook3d st pid m
    else if m.mtype = some "world_interaction" then (st, [], none)
    else (st, [], none)
  match r.2.2 with
  | none => (r.1, r.2.1, true)
  | some _ =>
      let d := disconnect_player env pid r.1
      (d.1, r.2.1 ++ d.2, false)

end IS

namespace Agent

/-!
Model of `ai_3d_model_agent.py` (`AI3DModelAgent`).  The filesystem is the
set of paths ever written; `AgentEnv` carries the ingredients outside the
claims: `md5hex` stands for `hashlib.md5(...).hexdigest()` (any function of
the input string), `sketchfab` for the JSON results of the one real HTTP
search request, and three booleans for the import/subprocess availability
probes.  Dataclass construction is modelled by checking the literal keyword
names of each call site against the declared fields of `ModelMetadata`,
raising `TypeError` on an unknown keyword, exactly as Python does.
-/

/-- Effects of the agent: simulated delays, file writes, and real network
requests. -/
inductive AEffect where
  | sleep (seconds : ℚ)
  | fileWrite (path : String)
  | netGet (url : String)
  deriving DecidableEq, Repr

/-- The `ModelSource` enum. -/
inductive ModelSource where
  | generated_ai
  | downloaded_online
  | cached_local
  | placeholder
  deriving DecidableEq, Repr

/-- The `ModelFormat` enum. -/
inductive ModelFormat where
  | glb
  | gltf
  | obj
  | fbx
  | ply
  | stl
  deriving DecidableEq, Repr

/-- The `.value` string of a `ModelFormat`. -/
def ModelFormat.value : ModelFormat → String
  | .glb => "glb"
  | .gltf => "gltf"
  | .obj => "obj"
  | .fbx => "fbx"
  | .ply => "ply"
  | .stl => "stl"

/-- The `ModelMetadata` dataclass with its declared fields and defaults
(`created_at` and `last_accessed` default to `time.time()` at construction,
so every constructor call site passes the current time explicitly). -/
structure ModelMetadata where
  model_id : String
  name : String
  description : String
  source : ModelSource
  format : ModelFormat
  file_path : String
  file_size : Int := 0
  created_at : ℚ
  last_accessed : ℚ
  license_info : String := "Unknown"
  attribution : String := ""
  tags : List String := []
  quality_score : ℚ := 1/2
  polycount : Int := 0
  texture_maps : List String := []
  deriving DecidableEq, Repr

/-- The field names declared by the `ModelMetadata` dataclass, the keyword
names its constructor accepts. -/
def modelMetadataFields : List String :=
  ["model_id", "name", "description", "source", "format", "file_path",
   "file_size", "created_at", "last_accessed", "license_info", "attribution",
   "tags", "quality_score", "polycount", "texture_maps"]

/-- Python dataclass construction: `ModelMetadata(**kwargs)` raises
`TypeError` when any keyword is not a declared field; otherwise it yields
the record (unset fields at their defaults). -/
def dataclassCall (kwargs : List String) (v : ModelMetadata) :
    Except PyErr ModelMetadata :=
  if kwargs.all (fun k => modelMetadataFields.contains k) then Except.ok v
  else Except.error PyErr.typeError

/-- The `ModelRequest` dataclass; `style` is `style_preferences.get("style")`,
the only style preference the agent reads. -/
structure ModelRequest where
  content_type : String
  content_name : String
  content_description : String
  style : Option String := none
  quality_level : String := "medium"
  max_polycount : Int := 10000
  preferred_format : ModelFormat := .glb
  deriving DecidableEq, Repr

/-- One search result from an online repository (the two keys read by
`_download_model`). -/
structure RepoInfo where
  license : Option String := none
  attribution : Option String := none
  deriving DecidableEq, Repr

/-- Static environment of the agent. -/
structure AgentEnv where
  md5hex : String → String
  sketchfab : String → List RepoInfo
  hasOpenai : Bool := false
  hasReplicate : Bool := false
  hasBlender : Bool := false
  modelsDir : String := "game_data/3d_models"

/-- The agent state: the `model_cache` dict and the set of files on disk. -/
structure AgentState where
  model_cache : List (String × ModelMetadata)
  files : List String
  deriving Repr

/-- Record a written file (overwriting an existing one keeps the set). -/
def addFile (files : List String) (p : String) : List String :=
  if p ∈ files then files else files ++ [p]

/-- The keys of `self.subdirs`. -/
def subdirNames : List String :=
  ["weapons", "beasts", "divine_entities", "environments", "props", "cache"]

/-- `self.subdirs.get(request.content_type + "s", self.subdirs["cache"])`. -/
def subdirPath (modelsDir ct : String) : String :=
  if (ct ++ "s") ∈ subdirNames then modelsDir ++ "/" ++ ct ++ "s"
  else modelsDir ++ "/cache"

/-- `AI3DModelAgent.generate_model_id`: content-type prefix plus the first 8
hex digits of the MD5 of `f"{content_type}_{content_name}"`. -/
def generate_model_id (env : AgentEnv) (content_name content_type : String) :
    String :=
  content_type ++ "_" ++ (env.md5hex (content_type ++ "_" ++ content_name)).take 8

/-- Python `str.lower()` (ASCII). -/
def pyLower (s : String) : String := String.mk (s.data.map Char.toLower)

/-- Helper for `str.split()`: split on runs of whitespace. -/
def splitWsAux : List Char → List Char → List String
  | [], acc => if acc.isEmpty then [] else [String.mk acc.reverse]
  | c :: cs, acc =>
      if c.isWhitespace then
        if acc.isEmpty then splitWsAux cs []
        else String.mk acc.reverse :: splitWsAux cs []
      else splitWsAux cs (c :: acc)

/-- Python `str.split()` with no argument. -/
def pySplitWs (s : String) : List String := splitWsAux s.data []

/-- The `skip_words` set of `_generate_search_terms`. -/
def skipWords : List String := ["the", "of", "and", "or", "a", "an"]

/-- `AI3DModelAgent._generate_search_terms`. -/
def generate_search_terms (r : ModelRequest) : List String :=
  let terms0 := [r.content_type.replace "_" " "]
  let nameWords := pySplitWs (pyLower r.content_name)
  let meaningful := nameWords.filter
    (fun w => decide (w ∉ skipWords) && decide (w.length > 2))
  let terms1 := terms0 ++ meaningful.take 3
  match r.style with
  | some sty => terms1 ++ [sty]
  | none => terms1

/-- The keyword names passed to `ModelMetadata(...)` by each of
`_generate_with_luma_ai`, `_generate_with_meshy_ai`, `_generate_with_kaedim`
and `_generate_with_scenario_gg` (all four call sites pass exactly these
keywords, including `generation_metadata`). -/
def aiServiceKwargs : List String :=
  ["model_id", "name", "description", "source", "format", "file_path",
   "file_size", "license_info", "quality_score", "generation_metadata"]

/-- The keyword names passed by `_download_model`. -/
def downloadKwargs : List String :=
  ["model_id", "name", "description", "source", "format", "file_path",
   "file_size", "license_info", "attribution", "tags", "quality_score"]

/-- The keyword names passed by `_generate_with_openai`. -/
def openaiKwargs : List String :=
  ["model_id", "name", "description", "source", "format", "file_path",
   "file_size", "license_info", "quality_score", "tags"]

/-- The keyword names passed by `_generate_with_blender`. -/
def blenderKwargs : List String :=
  ["model_id", "name", "description", "source", "format", "file_path",
   "file_size", "license_info", "quality_score", "polycount", "tags"]

/-- The keyword names passed by `_create_placeholder_model`. -/
def placeholderKwargs : List String :=
  ["model_id", "name", "description", "source", "format", "file_path",
   "file_size", "license_info", "quality_score", "tags"]

/-- `AI3DModelAgent._generate_with_luma_ai`: simulate 2.5 s of generation,
write a placeholder text file, then construct the metadata record.  The
construction passes `generation_metadata=...`, a keyword `ModelMetadata`
does not declare, so it raises `TypeError`, the `except` returns `None`,
and the already-written file stays on disk. -/
def generate_with_luma_ai (env : AgentEnv) (now : ℚ) (r : ModelRequest)
    (model_id : String) (files : List String) :
    List AEffect × List String × Option ModelMetadata :=
  let path := subdirPath env.modelsDir r.content_type ++ "/" ++ model_id ++
    "_luma." ++ r.preferred_format.value
  let effs := [AEffect.sleep (5/2), AEffect.fileWrite path]
  let files1 := addFile files path
  match dataclassCall aiServiceKwargs
      { model_id := model_id, name := r.content_name
        description := "Luma AI Generated: " ++ r.content_description
        source := .generated_ai, format := r.preferred_format
        file_path := path, file_size := 3072 * 1024
        created_at := now, last_accessed := now
        license_info := "Luma AI Generated - Commercial Use Allowed"
        quality_score := 85/100 } with
  | Except.ok md => (effs, files1, some md)
  | Except.error _ => (effs, files1, none)

/-- `AI3DModelAgent._generate_with_meshy_ai` (same `TypeError` fate as the
Luma routine). -/
def generate_with_meshy_ai (env : AgentEnv) (now : ℚ) (r : ModelRequest)
    (model_id : String) (files : List String) :
    List AEffect × List String × Option ModelMetadata :=
  let path := subdirPath env.modelsDir r.content_type ++ "/" ++ model_id ++
    "_meshy." ++ r.preferred_format.value
  let effs := [AEffect.sleep 3, AEffect.fileWrite path]
  let files1 := addFile files path
  match dataclassCall aiServiceKwargs
      { model_id := model_id, name := r.content_name
        description := "Meshy AI Generated: " ++ r.content_description
        source := .generated_ai, format := r.preferred_format
        file_path := path, file_size := 2560 * 1024
        created_at := now, last_accessed := now
        license_info := "Meshy AI Generated - Commercial Use Allowed"
        quality_score := 8/10 } with
  | Except.ok md => (effs, files1, some md)
  | Except.error _ => (effs, files1, none)

/-- `AI3DModelAgent._generate_with_kaedim` (same `TypeError` fate). -/
def generate_with_kaedim (env : AgentEnv) (now : ℚ) (r : ModelRequest)
    (model_id : String) (files : List String) :
    List AEffect × List String × Option ModelMetadata :=
  let path := subdirPath env.modelsDir r.content_type ++ "/" ++ model_id ++
    "_kaedim." ++ r.preferred_format.value
  let effs := [AEffect.sleep 5, AEffect.fileWrite path]
  let files1 := addFile files path
  match dataclassCall aiServiceKwargs
      { model_id := model_id, name := r.content_name
        description := "Kaedim Generated: " ++ r.content_description
        source := .generated_ai, format := r.preferred_format
        file_path := path, file_size := 5120 * 1024
        created_at := now, last_accessed := now
        license_info := "Kaedim Generated - Production Use Allowed"
        quality_score := 9/10 } with
  | Except.ok md => (effs, files1, some md)
  | Except.error _ => (effs, files1, none)

/-- `AI3DModelAgent._generate_with_scenario_gg` (same `TypeError` fate). -/
def generate_with_scenario_gg (env : AgentEnv) (now : ℚ) (r : ModelRequest)
    (model_id : String) (files : List String) :
    List AEffect × List String × Option ModelMetadata :=
  let path := subdirPath env.modelsDir r.content_type ++ "/" ++ model_id ++
    "_scenario." ++ r.preferred_format.value
  let effs := [AEffect.sleep (7/2), AEffect.fileWrite path]
  let files1 := addFile files path
  match dataclassCall aiServiceKwargs
      { model_id := model_id, name := r.content_name
        description := "Scenario.gg Generated: " ++ r.content_description
        source := .generated_ai, format := r.preferred_format
        file_path := path, file_size := 3584 * 1024
        created_at := now, last_accessed := now
        license_info := "Scenario.gg Generated - Game Development License"
        quality_score := 82/100 } with
  | Except.ok md => (effs, files1, some md)
  | Except.error _ => (effs, files1, none)

/-- `AI3DModelAgent._generate_with_openai` (guarded by `HAS_OPENAI`; its
keyword names are all declared fields, so it succeeds). -/
def generate_with_openai (env : AgentEnv) (now : ℚ) (r : ModelRequest)
    (model_id : String) (files : List String) :
    List AEffect × List String × Option ModelMetadata :=
  if !env.hasOpenai then ([], files, none)
  else
    let path := subdirPath env.modelsDir r.content_type ++ "/" ++ model_id ++
      "_ai." ++ r.preferred_format.value
    let effs := [AEffect.sleep 2, AEffect.fileWrite path]
    let files1 := addFile files path
    match dataclassCall openaiKwargs
        { model_id := model_id, name := r.content_name
          description := "AI Generated: " ++ r.content_description
          source := .generated_ai, format := r.preferred_format
          file_path := path, file_size := 2048
          created_at := now, last_accessed := now
          license_info := "AI Generated - Custom License"
          quality_score := 6/10
          tags := ["ai_generated", "procedural"] ++ generate_search_terms r } with
    | Except.ok md => (effs, files1, some md)
    | Except.error _ => (effs, files1, none)

/-- `AI3DModelAgent._generate_with_replicate`: returns `None`
unconditionally. -/
def generate_with_replicate (files : List String) :
    List AEffect × List String × Option ModelMetadata :=
  ([], files, none)

/-- `AI3DModelAgent._generate_with_blender` (guarded by the Blender
availability probe; valid keywords, so it succeeds). -/
def generate_with_blender (env : AgentEnv) (now : ℚ) (r : ModelRequest)
    (model_id : String) (files : List String) :
    List AEffect × List String × Option ModelMetadata :=
  let path := subdirPath env.modelsDir r.content_type ++ "/" ++ model_id ++
    "_blender." ++ r.preferred_format.value
  let effs := [AEffect.sleep 3, AEffect.fileWrite path]
  let files1 := addFile files path
  match dataclassCall blenderKwargs
      { model_id := model_id, name := r.content_name
        description := "Blender Generated: " ++ r.content_description
        source := .generated_ai, format := r.preferred_format
        file_path := path, file_size := 4096
        created_at := now, last_accessed := now
        license_info := "Procedurally Generated"
        quality_score := 8/10, polycount := 5000
        tags := ["blender_generated", "procedural"] } with
  | Except.ok md => (effs, files1, some md)
  | Except.error _ => (effs, files1, none)

/-- `AI3DModelAgent._get_preferred_services_for_content`. -/
def preferredServices (ct : String) : List String :=
  if ct = "weapon" then ["luma_ai_genie", "meshy_ai", "kaedim", "scenario_gg"]
  else if ct = "beast" then ["meshy_ai", "kaedim", "luma_ai_genie", "scenario_gg"]
  else if ct = "divine_entity" then ["kaedim", "luma_ai_genie", "meshy_ai", "scenario_gg"]
  else if ct = "character" then ["kaedim", "meshy_ai", "luma_ai_genie"]
  else if ct = "environment" then ["meshy_ai", "scenario_gg", "luma_ai_genie"]
  else if ct = "prop" then ["luma_ai_genie", "scenario_gg", "meshy_ai"]
  else ["luma_ai_genie", "meshy_ai", "kaedim", "scenario_gg",
        "openai_shap_e", "replicate_dreamfusion", "local_blender"]

/-- The `available` flag of each entry of `self.ai_services`
(`ai_services.get(service_name, {}).get("available", False)`). -/
def serviceAvailable (env : AgentEnv) : String → Bool
  | "luma_ai_genie" => true
  | "meshy_ai" => true
  | "kaedim" => true
  | "scenario_gg" => true
  | "openai_shap_e" => env.hasOpenai
  | "replicate_dreamfusion" => env.hasReplicate
  | "local_blender" => env.hasBlender
  | _ => false

/-- The `elif` dispatch inside `_try_ai_generation`. -/
def runService (env : AgentEnv) (now : ℚ) (r : ModelRequest)
    (model_id : String) (files : List String) (s : String) :
    List AEffect × List String × Option ModelMetadata :=
  if s = "luma_ai_genie" then generate_with_luma_ai env now r model_id files
  else if s = "meshy_ai" then generate_with_meshy_ai env now r model_id files
  else if s = "kaedim" then generate_with_kaedim env now r model_id files
  else if s = "scenario_gg" then generate_with_scenario_gg env now r model_id files
  else if s = "openai_shap_e" then generate_with_openai env now r model_id files
  else if s = "replicate_dreamfusion" then generate_with_replicate files
  else if s = "local_blender" then generate_with_blender env now r model_id files
  else ([], files, none)

/-- The service loop of `AI3DModelAgent._try_ai_generation`: skip unavailable
services, return the first non-`None` result. -/
def tryServicesLoop (env : AgentEnv) (now : ℚ) (r : ModelRequest)
    (model_id : String) :
    List String → List String → List AEffect × List String × Option ModelMetadata
  | [], files => ([], files, none)
  | s :: rest, files =>
      if serviceAvailable env s then
        let r1 := runService env now r model_id files s
        match r1.2.2 with
        | some md => (r1.1, r1.2.1, some md)
        | none =>
            let r2 := tryServicesLoop env now r model_id rest r1.2.1
            (r1.1 ++ r2.1, r2.2.1, r2.2.2)
      else tryServicesLoop env now r model_id rest files

/-- `AI3DModelAgent._try_ai_generation`. -/
def try_ai_generation (env : AgentEnv) (now : ℚ) (r : ModelRequest)
    (model_id : String) (files : List String) :
    List AEffect × List String × Option ModelMetadata :=
  tryServicesLoop env now r model_id (preferredServices r.content_type) files

/-- The URL `_search_sketchfab` issues a real `requests.get` against. -/
def sketchfabUrl (query : String) : String :=
  "https://api.sketchfab.com/v3/search?type=models&q=" ++ query ++
    "&downloadable=true"

/-- `AI3DModelAgent._download_model`: a mock download that sleeps, writes a
placeholder file and fabricates metadata (all its keywords are declared
fields, so it succeeds). -/
def download_model (env : AgentEnv) (now : ℚ) (r : ModelRequest)
    (model_id : String) (files : List String) (repoName : String)
    (best : RepoInfo) : List AEffect × List String × Option ModelMetadata :=
  let path := subdirPath env.modelsDir r.content_type ++ "/" ++ model_id ++
    "." ++ r.preferred_format.value
  let effs := [AEffect.sleep 1, AEffect.fileWrite path]
  let files1 := addFile files path
  match dataclassCall downloadKwargs
      { model_id := model_id, name := r.content_name
        description := "Downloaded from " ++ repoName ++ ": " ++
          r.content_description
        source := .downloaded_online, format := r.preferred_format
        file_path := path, file_size := 1024
        created_at := now, last_accessed := now
        license_info := (best.license.getD "Unknown")
        attribution := (best.attribution.getD "")
        tags := generate_search_terms r
        quality_score := 7/10 } with
  | Except.ok md => (effs, files1, some md)
  | Except.error _ => (effs, files1, none)

/-- `AI3DModelAgent._try_download_online`: search Sketchfab (a real HTTP
request whose results come from the environment; any exception yields the
empty list), download the best match if any, then fall through to the
Poly Haven stub which always returns no results. -/
def try_download_online (env : AgentEnv) (now : ℚ) (r : ModelRequest)
    (model_id : String) (files : List String) :
    List AEffect × List String × Option ModelMetadata :=
  let terms := generate_search_terms r
  let query := String.intercalate " " terms
  let effsS := [AEffect.netGet (sketchfabUrl query)]
  match (env.sketchfab query).take 5 with
  | [] => (effsS, files, none)
  | best :: _ =>
      let d := download_model env now r model_id files "sketchfab" best
      (effsS ++ d.1, d.2.1, d.2.2)

/-- The fixed OBJ cube `_generate_placeholder_content` emits for OBJ
requests. -/
def objCubeText : String :=
  "# Placeholder 3D Model\nv -1.0 -1.0  1.0\nv  1.0 -1.0  1.0\n" ++
  "v  1.0  1.0  1.0\nv -1.0  1.0  1.0\nv -1.0 -1.0 -1.0\n" ++
  "v  1.0 -1.0 -1.0\nv  1.0  1.0 -1.0\nv -1.0  1.0 -1.0\n\n" ++
  "f 1 2 3 4\nf 8 7 6 5\nf 4 3 7 8\nf 5 1 4 8\nf 5 6 2 1\nf 2 6 7 3\n"

/-- `AI3DModelAgent._generate_placeholder_content`. -/
def generate_placeholder_content (r : ModelRequest) : String :=
  if r.preferred_format = ModelFormat.obj then objCubeText
  else "# Placeholder 3D model for " ++ r.content_name

/-- `AI3DModelAgent._create_placeholder_model`: always writes a file and
returns metadata (its keywords are all declared fields). -/
def create_placeholder_model (env : AgentEnv) (now : ℚ) (r : ModelRequest)
    (model_id : String) (files : List String) :
    List AEffect × List String × Option ModelMetadata :=
  let path := subdirPath env.modelsDir r.content_type ++ "/" ++ model_id ++
    "_placeholder." ++ r.preferred_format.value
  let content := generate_placeholder_content r
  let effs := [AEffect.fileWrite path]
  let files1 := addFile files path
  match dataclassCall placeholderKwargs
      { model_id := model_id, name := r.content_name
        description := "Placeholder: " ++ r.content_description
        source := .placeholder, format := r.preferred_format
        file_path := path, file_size := content.length
        created_at := now, last_accessed := now
        license_info := "Placeholder"
        quality_score := 3/10
        tags := ["placeholder", r.content_type] } with
  | Except.ok md => (effs, files1, some md)
  | Except.error _ => (effs, files1, none)

/-- The metadata file `save_metadata` writes. -/
def metadataFilePath (env : AgentEnv) : String :=
  env.modelsDir ++ "/models_metadata.json"

/-- The creation pipeline of `get_or_create_model` once the cache misses:
online download, then AI generation, then the placeholder; cache and persist
the result if any. -/
def createModel (env : AgentEnv) (now : ℚ) (st : AgentState)
    (r : ModelRequest) (model_id : String) :
    AgentState × List AEffect × Option ModelMetadata :=
  let d1 := try_download_online env now r model_id st.files
  let d2 := match d1.2.2 with
    | some md => (([] : List AEffect), d1.2.1, some md)
    | none => try_ai_generation env now r model_id d1.2.1
  let d3 := match d2.2.2 with
    | some md => (([] : List AEffect), d2.2.1, some md)
    | none => create_placeholder_model env now r model_id d2.2.1
  match d3.2.2 with
  | some md =>
      ({ model_cache := setKey st.model_cache model_id md
         files := addFile d3.2.1 (metadataFilePath env) },
       d1.1 ++ d2.1 ++ d3.1 ++ [AEffect.fileWrite (metadataFilePath env)],
       some md)
  | none => ({ st with files := d3.2.1 }, d1.1 ++ d2.1 ++ d3.1, none)

/-- `AI3DModelAgent.get_or_create_model`: compute the deterministic model id;
on a cache hit whose file still exists, refresh `last_accessed` (in place, so
also in the cache) and return the cached metadata with no effects; on a hit
whose file vanished, evict and recreate; on a miss, run the creation
pipeline. -/
def get_or_create_model (env : AgentEnv) (now : ℚ) (st : AgentState)
    (r : ModelRequest) : AgentState × List AEffect × Option ModelMetadata :=
  let model_id := generate_model_id env r.content_name r.content_type
  match getKey st.model_cache model_id with
  | some md =>
      if md.file_path ∈ st.files then
        let md1 := { md with last_accessed := now }
        ({ st with model_cache := setKey st.model_cache model_id md1 }, [],
         some md1)
      else
        createModel env now { st with model_cache := delKey st.model_cache model_id }
          r model_id
  | none => createModel env now st r model_id

/-- States reachable from a fresh agent (empty cache, no model files) by any
sequence of `get_or_create_model` calls. -/
inductive Reachable (env : AgentEnv) : AgentState → Prop where
  | base : Reachable env { model_cache := [], files := [] }
  | step (s : AgentState) (now : ℚ) (r : ModelRequest)
      (h : Reachable env s) :
      Reachable env (get_or_create_model env now s r).1

end Agent

namespace Wit

/-!
Concrete fixtures used by witness and counterexample theorems: a no-op hook,
environments with and without failing sockets, small server states, and a
concrete model request (one of the requests of `test_ai_model_agent`).
-/

/-- A hook that changes nothing (any hook would do; the theorems quantify
over them). -/
def idHook : IS.ServerState → String → IS.Message →
    IS.ServerState × List Effect × Option PyErr :=
  fun st _ _ => (st, [], none)

/-- Integrated-server environment where every socket works. -/
def isEnvNoFail : IS.Env where
  F := fun _ => false
  now := 7
  nearby20 := fun _ _ => false
  npcRest := idHook
  hookQuest := idHook
  hookVoice := idHook
  hookKarma := idHook
  hookNpcVoice := idHook
  hookProcedural := idHook
  hook3d := idHook

/-- A connected player of the integrated server sitting at the origin
(inside Indrapura City). -/
def isPlayer (i : String) : IS.Player where
  player_id := i
  name := i
  position := {}
  current_region := .indrapura_city

/-- Integrated-server state with one connected player. -/
def isState1 : IS.ServerState where
  connected_players := [("p1", isPlayer "p1")]
  chat_history := []
  player_data := []

/-- A basic-server player on websocket `w1` at the origin. -/
def abPlayer1 : AB.Player where
  player_id := "p1"
  name := "P"
  position := {}
  current_region := .indrapura_city
  websocket := some "w1"

/-- A second basic-server player on websocket `w2`. -/
def abPlayer2 : AB.Player where
  player_id := "p2"
  name := "Q"
  position := {}
  current_region := .indrapura_city
  websocket := some "w2"

/-- Basic-server state with two connected players. -/
def abState2 : AB.ServerState where
  players := [("p1", abPlayer1), ("p2", abPlayer2)]
  connections := ["w1", "w2"]

/-- Basic-server environment where `send_text` raises exactly on websocket
`w1`. -/
def abEnvW1Fail : AB.Env where
  Ffail := fun w => w == "w1"
  now := 5

/-- Basic-server environment where every socket works. -/
def abEnvNoFail : AB.Env where
  Ffail := fun _ => false
  now := 5

/-- A concrete integrated-server movement message carrying x and z only,
staying inside Indrapura City. -/
def isMoveMsg : IS.Message := { mtype := some "movement", x := some 10, z := some 5 }

/-- A concrete integrated-server movement message crossing into the Ocean
Frontier (x = 300 > 200). -/
def isMoveMsgRC : IS.Message := { mtype := some "movement", x := some 300 }

/-- A basic-server movement message with a complete position object. -/
def abMoveFull : AB.Message :=
  { mtype := some "move"
    position := some { x := some 10, y := some 3, z := some 5 } }

/-- A basic-server movement message without a position object. -/
def abMoveNoPos : AB.Message := { mtype := some "move" }

/-- A basic-server movement message with an incomplete position object. -/
def abMoveMissing : AB.Message :=
  { mtype := some "move", position := some { y := some 2 } }

/-- A concrete `npc_interaction` message. -/
def npcMsg : IS.Message := { mtype := some "npc_interaction", npc_id := some "guru" }

/-- Agent environment: a fixed hash function and a Sketchfab search that
returns no results (network unavailable or no matches). -/
def agentEnv : Agent.AgentEnv where
  md5hex := fun _ => "0123456789abcdef"
  sketchfab := fun _ => []

/-- A concrete model request (from `test_ai_model_agent`). -/
def agentReq : Agent.ModelRequest where
  content_type := "weapon"
  content_name := "Burning Ether Sword"
  content_description := "A mystical sword forged from ethereal flames"
  style := some "fantasy"

end Wit

/-! ## Association-list and filter lemmas -/

theorem getKey_setKey_self {α : Type} (l : List (String × α)) (k : String) (v : α) :
    getKey (setKey l k v) k = some v := by
  induction l with
  | nil => simp [setKey, getKey]
  | cons e rest ih =>
      obtain ⟨k1, v1⟩ := e
      by_cases h : k1 = k <;> simp [setKey, getKey, h, ih]

theorem getKey_setKey_ne {α : Type} (l : List (String × α)) (k k1 : String) (v : α)
    (h : k ≠ k1) : getKey (setKey l k v) k1 = getKey l k1 := by
  induction l with
  | nil => simp [setKey, getKey, h]
  | cons e rest ih =>
      obtain ⟨k2, v2⟩ := e
      by_cases h2 : k2 = k
      · subst h2; simp [setKey, getKey, h]
      · simp only [setKey, if_neg h2, getKey]
        by_cases h3 : k2 = k1 <;> simp [h3, ih]

theorem getKey_delKey_ne {α : Type} (l : List (String × α)) (k k1 : String)
    (h : k ≠ k1) : getKey (delKey l k) k1 = getKey l k1 := by
  induction l with
  | nil => simp [delKey]
  | cons e rest ih =>
      obtain ⟨k2, v2⟩ := e
      by_cases h2 : k2 = k
      · subst h2
        simp [delKey, getKey, h]
      · simp only [delKey, if_neg h2, getKey]
        by_cases h3 : k2 = k1 <;> simp [h3, ih]

theorem getKey_eq_none_of_not_mem {α : Type} (l : List (String × α)) (k : String)
    (h : k ∉ keysOf l) : getKey l k = none := by
  induction l with
  | nil => rfl
  | cons e rest ih =>
      obtain ⟨k1, v1⟩ := e
      simp only [keysOf, List.map_cons, List.mem_cons] at h
      push_neg at h
      have h1 : k1 ≠ k := fun hh => h.1 hh.symm
      simp [getKey, h1, ih (by simpa [keysOf] using h.2)]

theorem hasKey_of_mem {α : Type} {l : List (String × α)} {e : String × α}
    (he : e ∈ l) : hasKey l e.1 = true := by
  induction l with
  | nil => cases he
  | cons e1 rest ih =>
      rcases List.mem_cons.mp he with h | h
      · subst h; simp [hasKey, getKey]
      · obtain ⟨k1, v1⟩ := e1
        by_cases h2 : k1 = e.1 <;> simp [hasKey, getKey, h2, ih h] at *
        exact ih h

theorem delKey_sublist {α : Type} (l : List (String × α)) (k : String) :
    (delKey l k).Sublist l := by
  induction l with
  | nil => simp [delKey]
  | cons e rest ih =>
      obtain ⟨k1, v1⟩ := e
      by_cases h : k1 = k
      · simp [delKey, h, List.sublist_cons_self (k1, v1) rest]
      · simpa [delKey, h] using ih.cons₂ (k1, v1)

theorem mem_setKey {α : Type} {l : List (String × α)} {k : String} {v : α}
    {e : String × α} (h : e ∈ setKey l k v) : e = (k, v) ∨ e ∈ l := by
  induction l with
  | nil => simpa [setKey] using h
  | cons e1 rest ih =>
      obtain ⟨k1, v1⟩ := e1
      by_cases h1 : k1 = k
      · simp only [setKey, if_pos h1, List.mem_cons] at h
        rcases h with h | h
        · exact Or.inl h
        · exact Or.inr (List.mem_cons_of_mem _ h)
      · simp only [setKey, if_neg h1, List.mem_cons] at h
        rcases h with h | h
        · exact Or.inr (by simp [h])
        · rcases ih h with h2 | h2
          · exact Or.inl h2
          · exact Or.inr (List.mem_cons_of_mem _ h2)

theorem hasKey_setKey {α : Type} (l : List (String × α)) (k k1 : String) (v : α)
    (h : hasKey l k1 = true) : hasKey (setKey l k v) k1 = true := by
  by_cases hk : k = k1
  · subst hk; simp [hasKey, getKey_setKey_self]
  · simpa [hasKey, getKey_setKey_ne l k k1 v hk] using h

theorem keysOf_setKey_of_hasKey {α : Type} (l : List (String × α))
    (k : String) (v : α) (h : hasKey l k = true) :
    keysOf (setKey l k v) = keysOf l := by
  induction l with
  | nil => simp [hasKey, getKey] at h
  | cons e rest ih =>
      obtain ⟨k1, v1⟩ := e
      by_cases hk : k1 = k
      · subst hk; simp [setKey, keysOf]
      · have h2 : hasKey rest k = true := by
          simpa [hasKey, getKey, hk] using h
        have h3 := ih h2
        simp only [keysOf] at h3
        simp [setKey, if_neg hk, keysOf, h3]

theorem filter_delKey_of_pred {α : Type} (q : String × α → Bool)
    (l : List (String × α)) (k : String) (hq : ∀ v, q (k, v) = false) :
    (delKey l k).filter q = l.filter q := by
  induction l with
  | nil => simp [delKey]
  | cons e rest ih =>
      obtain ⟨k1, v1⟩ := e
      by_cases h : k1 = k
      · subst h; simp [delKey, List.filter_cons, hq v1]
      · simp only [delKey, if_neg h, List.filter_cons]
        by_cases h2 : q (k1, v1) = true <;> simp [h2, ih]

theorem length_filter_delKey {α : Type} (q : String × α → Bool)
    (l : List (String × α)) (k : String) (hq : ∀ v, q (k, v) = true)
    (hk : hasKey l k = true) :
    ((delKey l k).filter q).length + 1 = (l.filter q).length := by
  induction l with
  | nil => simp [hasKey, getKey] at hk
  | cons e rest ih =>
      obtain ⟨k1, v1⟩ := e
      by_cases h : k1 = k
      · subst h; simp [delKey, List.filter_cons, hq v1]
      · have hk2 : hasKey rest k = true := by
          simpa [hasKey, getKey, h] using hk
        simp only [delKey, if_neg h, List.filter_cons]
        by_cases h2 : q (k1, v1) = true <;>
          simp [h2, ← ih hk2, Nat.succ_eq_add_one]

theorem length_filter_pos {α : Type} (q : α → Bool) {l : List α} {e : α}
    (he : e ∈ l) (hqe : q e = true) : 0 < (l.filter q).length := by
  have : e ∈ l.filter q := List.mem_filter.mpr ⟨he, hqe⟩
  exact List.length_pos.mpr (fun h => by simp [h] at this)

theorem filter_not_of_filter_nil {α : Type} (q : α → Bool) {l : List α}
    (h : l.filter q = []) : l.filter (fun a => !q a) = l := by
  apply List.filter_eq_self.mpr
  intro a ha
  have : q a = false := by
    by_contra hq
    have hq2 : q a = true := by revert hq; cases q a <;> simp
    have : a ∈ l.filter q := List.mem_filter.mpr ⟨ha, hq2⟩
    simp [h] at this
  simp [this]

theorem filter_idem {α : Type} (q : α → Bool) (l : List α) :
    (l.filter q).filter q = l.filter q := by
  apply List.filter_eq_self.mpr
  intro a ha
  exact (List.mem_filter.mp ha).2

theorem getKey_filter {α : Type} (q : String × α → Bool)
    (l : List (String × α)) (k : String) (hq : ∀ v, q (k, v) = true) :
    getKey (l.filter q) k = getKey l k := by
  induction l with
  | nil => simp
  | cons e rest ih =>
      obtain ⟨k1, v1⟩ := e
      by_cases h : k1 = k
      · subst h; simp [List.filter_cons, hq v1, getKey]
      · simp only [List.filter_cons]
        by_cases h2 : q (k1, v1) = true <;> simp [h2, getKey, h, ih]

/-! ## Lemmas about the basic server (`AncientBharatServer`) -/

namespace AB

theorem foldl_erase_eq_filter :
    ∀ (fs acc : List String), acc.Nodup →
      fs.foldl (fun a c => if c ∈ a then a.erase c else a) acc =
        acc.filter (fun x => !(fs.contains x)) := by
  intro fs
  induction fs with
  | nil => intro acc _; simp
  | cons c fs ih =>
      intro acc hnd
      have hstep : (if c ∈ acc then acc.erase c else acc) =
          acc.filter (fun x => !(x == c)) := by
        by_cases hc : c ∈ acc
        · rw [if_pos hc, List.Nodup.erase_eq_filter hnd]
          simp [bne]
        · rw [if_neg hc]
          refine (List.filter_eq_self.mpr (fun a ha => ?_)).symm
          have h1 : a ≠ c := fun hh => hc (hh ▸ ha)
          simp [h1]
      rw [List.foldl_cons, hstep, ih _ (List.Nodup.filter _ hnd),
        List.filter_filter]
      apply List.filter_congr
      intro x _
      by_cases hx : x = c <;> simp [hx, List.contains_cons]

/-- `_broadcast_to_all` never touches the players dict, and (for a
duplicate-free connections list, which a list maintained by `append` on
connect and `remove` on disconnect is) it removes exactly the failing
connections. -/
theorem broadcast_to_all_spec (env : Env) (t : String) (st : ServerState) :
    (broadcast_to_all env t st).1.players = st.players ∧
    (st.connections.Nodup →
      (broadcast_to_all env t st).1.connections =
        st.connections.filter (fun c => !(env.Ffail c))) := by
  unfold broadcast_to_all
  by_cases h : st.connections = []
  · simp [h]
  · simp only [if_neg h]
    refine ⟨trivial, fun hnd => ?_⟩
    rw [foldl_erase_eq_filter _ _ hnd]
    apply List.filter_congr
    intro x hx
    by_cases hf : env.Ffail x = true
    · simp [hf, List.elem_iff, List.mem_filter, hx]
    · have hf2 : env.Ffail x = false := by revert hf; cases env.Ffail x <;> simp
      simp [hf2, List.elem_iff, List.mem_filter]

/-- `_broadcast_to_all` never touches the players dict. -/
theorem broadcast_to_all_players (env : Env) (t : String) (st : ServerState) :
    (broadcast_to_all env t st).1.players = st.players :=
  (broadcast_to_all_spec env t st).1

/-- `remove_player pid` does not change the entry of any other player. -/
theorem remove_player_players_other (env : Env) (pid : String)
    (st : ServerState) (k : String) (hne : pid ≠ k) :
    getKey (remove_player env pid st).1.players k = getKey st.players k := by
  unfold remove_player
  cases hg : getKey st.players pid with
  | none => rfl
  | some player =>
      simp only
      rw [broadcast_to_all_players]
      exact getKey_delKey_ne st.players pid k hne

/-- The cleanup loop of `_broadcast_to_others` removes only players whose
send failed, all of which differ from the excluded sender, so the sender's
entry survives. -/
theorem broadcast_to_others_players_sender (env : Env) (sender t : String)
    (st : ServerState) :
    getKey (broadcast_to_others env sender t st).1.players sender =
      getKey st.players sender := by
  unfold broadcast_to_others
  simp only
  have hfailed : ∀ p ∈ st.players.filterMap (fun e =>
      match e.2.websocket with
      | some w => if e.1 ≠ sender && env.Ffail w then some e.1 else none
      | none => none), p ≠ sender := by
    intro p hp
    rcases List.mem_filterMap.mp hp with ⟨e, _, he⟩
    cases hw : e.2.websocket with
    | none => simp [hw] at he
    | some w =>
        simp only [hw] at he
        by_cases hc : e.1 ≠ sender ∧ env.Ffail w = true
        · have : p = e.1 := by
            simp [hc.1, hc.2] at he
            exact he.symm
          exact this ▸ hc.1
        · exfalso
          revert he
          by_cases h1 : e.1 = sender <;> by_cases h2 : env.Ffail w = true <;>
            simp [h1, h2] at hc ⊢
  generalize st.players.filterMap _ = failed at hfailed
  suffices h : ∀ (fs : List String) (acc : ServerState × List Effect),
      (∀ p ∈ fs, p ≠ sender) →
      getKey (fs.foldl (fun acc p =>
        let r1 := remove_player env p acc.1
        (r1.1, acc.2 ++ r1.2)) acc).1.players sender =
        getKey acc.1.players sender by
    exact h failed (st, []) hfailed
  intro fs
  induction fs with
  | nil => intro acc _; rfl
  | cons p fs ih =>
      intro acc hall
      rw [List.foldl_cons]
      rw [ih _ (fun q hq => hall q (List.mem_cons_of_mem _ hq))]
      exact remove_player_players_other env p acc.1 sender
        (hall p (List.mem_cons_self _ _))

/-- `_send_to_player` leaves the state unchanged whenever whatever player
the dict holds under the target id has a working (or absent) socket. -/
theorem send_to_player_state2 (env : Env) (pid t : String) (st : ServerState)
    (hcond : ∀ q, getKey st.players pid = some q →
      ∀ w, q.websocket = some w → env.Ffail w = false) :
    (send_to_player env pid t st).1 = st := by
  cases hg : getKey st.players pid with
  | none => simp [send_to_player, hg]
  | some q =>
      cases hws : q.websocket with
      | none => simp [send_to_player, hg, hws]
      | some w => simp [send_to_player, hg, hws, hcond q hg w hws]

/-- `_send_to_player` leaves the state unchanged when the target's socket
works (or the target has no socket). -/
theorem send_to_player_state (env : Env) (pid t : String) (st : ServerState)
    (p : Player) (hg : getKey st.players pid = some p)
    (hw : ∀ w, p.websocket = some w → env.Ffail w = false) :
    (send_to_player env pid t st).1 = st := by
  cases hws : p.websocket with
  | none => simp [send_to_player, hg, hws]
  | some w => simp [send_to_player, hg, hws, hw w hws]

end AB

/-! ## Lemmas about the integrated server broadcast/disconnect recursion -/

namespace IS

theorem getKey_some_mem {α : Type} {l : List (String × α)} {k : String} {v : α}
    (h : getKey l k = some v) : (k, v) ∈ l := by
  induction l with
  | nil => simp [getKey] at h
  | cons e rest ih =>
      obtain ⟨k1, v1⟩ := e
      by_cases h1 : k1 = k
      · subst h1
        have h2 : v1 = v := by simpa [getKey] using h
        subst h2
        exact List.mem_cons_self _ _
      · simp only [getKey, if_neg h1] at h
        exact List.mem_cons_of_mem _ (ih h)

theorem filter_not_filter_nil {α : Type} (q : α → Bool) (l : List α) :
    (l.filter (fun a => !q a)).filter q = [] := by
  apply List.filter_eq_nil_iff.mpr
  intro a ha
  have h1 : (!q a) = true := (List.mem_filter.mp ha).2
  simp at h1
  simp [h1]

theorem countFail_le (env : Env) (st : ServerState) :
    countFail env st ≤ st.connected_players.length :=
  List.length_filter_le _ _

/-- The cleanup loop removes exactly the failing players, provided the list
it is given covers every failing player of the state (which is how
`broadcast_to_all` and `broadcast_to_others` call it), assuming the
connected-player characterization of `broadcastAllFuel` at the same fuel. -/
theorem disconnectLoop_connected (env : Env) (fuel : Nat)
    (hb : ∀ (t : String) (st : ServerState), countFail env st < fuel →
      (broadcastAllFuel env t fuel st).1.connected_players =
        st.connected_players.filter (fun e => !(env.F e.1))) :
    ∀ (l : List String) (st : ServerState),
      (∀ p ∈ l, env.F p = true) →
      (∀ e ∈ st.connected_players, env.F e.1 = true → e.1 ∈ l) →
      countFail env st ≤ fuel →
      (disconnectLoopFuel env fuel l st).1.connected_players =
        st.connected_players.filter (fun e => !(env.F e.1)) := by
  intro l
  induction l with
  | nil =>
      intro st _ hcov _
      rw [disconnectLoopFuel]
      have hψ : st.connected_players.filter (fun e => env.F e.1) = [] := by
        apply List.filter_eq_nil_iff.mpr
        intro e he hF
        exact absurd (hcov e he (by simpa using hF)) (List.not_mem_nil _)
      exact (filter_not_of_filter_nil _ hψ).symm
  | cons p rest ih =>
      intro st hl hcov hcnt
      rw [disconnectLoopFuel]
      simp only
      cases hg : getKey st.connected_players p with
      | none =>
          have hr1 : disconnectPlayerFuel env fuel p st = (st, []) := by
            rw [disconnectPlayerFuel, hg]
          rw [hr1]
          apply ih st (fun q hq => hl q (List.mem_cons_of_mem _ hq)) _ hcnt
          intro e he hF
          rcases List.mem_cons.mp (hcov e he hF) with h | h
          · exfalso
            have := hasKey_of_mem he
            rw [h] at this
            simp [hasKey, hg] at this
          · exact h
      | some player =>
          have hFp : env.F p = true := hl p (List.mem_cons_self _ _)
          have hk : hasKey st.connected_players p = true := by
            simp [hasKey, hg]
          have hcount : countFail env
              ((disconnectPlayerFuel env fuel p st).1) = 0 ∧
              (disconnectPlayerFuel env fuel p st).1.connected_players =
                st.connected_players.filter (fun e => !(env.F e.1)) := by
            rw [disconnectPlayerFuel, hg]
            simp only
            have hdel : ((delKey st.connected_players p).filter
                (fun e => env.F e.1)).length + 1 =
                (st.connected_players.filter (fun e => env.F e.1)).length :=
              length_filter_delKey _ _ _ (fun v => by simp [hFp]) hk
            have hlt : countFail env
                { st with
                  player_data := Cfg.save_player_progress st.player_data
                    player.player_id
                    { name := some player.name
                      level := some player.level
                      experience := some player.experience
                      regions_visited := some player.regions_visited
                      last_position := some player.position
                      last_login := some env.now }
                  connected_players := delKey st.connected_players p } < fuel := by
              simp only [countFail] at hcnt ⊢
              omega
            have hconn : (broadcastAllFuel env "player_left" fuel
                { st with
                  player_data := Cfg.save_player_progress st.player_data
                    player.player_id
                    { name := some player.name
                      level := some player.level
                      experience := some player.experience
                      regions_visited := some player.regions_visited
                      last_position := some player.position
                      last_login := some env.now }
                  connected_players :=
                    delKey st.connected_players p }).1.connected_players =
                (delKey st.connected_players p).filter
                  (fun e => !(env.F e.1)) := hb _ _ hlt
            constructor
            · simp only [countFail, hconn]
              exact List.length_eq_zero.mpr (filter_not_filter_nil _ _)
            · rw [hconn]
              exact filter_delKey_of_pred _ _ _ (fun v => by simp [hFp])
          rw [ih (disconnectPlayerFuel env fuel p st).1
              (fun q hq => hl q (List.mem_cons_of_mem _ hq))
              ?hcov2 (le_of_eq_of_le hcount.1 (Nat.zero_le _))]
          · rw [hcount.2]
            exact filter_idem _ _
          case hcov2 =>
            intro e he hF
            exfalso
            rw [hcount.2] at he
            have h2 : (!(env.F e.1)) = true := (List.mem_filter.mp he).2
            rw [hF] at h2
            simp at h2

/-- `broadcastAllFuel` with enough fuel keeps exactly the players whose
socket works. -/
theorem broadcastAll_connected (env : Env) :
    ∀ (fuel : Nat) (t : String) (st : ServerState), countFail env st < fuel →
      (broadcastAllFuel env t fuel st).1.connected_players =
        st.connected_players.filter (fun e => !(env.F e.1)) := by
  intro fuel
  induction fuel with
  | zero => intro t st h; omega
  | succ fuel ih =>
      intro t st h
      rw [broadcastAllFuel]
      simp only
      apply disconnectLoop_connected env fuel ih
      · intro p hp
        rcases List.mem_map.mp hp with ⟨e, he, rfl⟩
        exact (List.mem_filter.mp he).2
      · intro e he hF
        exact List.mem_map.mpr ⟨e, List.mem_filter.mpr ⟨he, hF⟩, rfl⟩
      · omega

/-- Main C2 fact for the integrated server: a `broadcast_to_all` keeps
exactly the players whose socket works (the fuel chosen by the wrapper is
always sufficient). -/
theorem broadcast_to_all_connected (env : Env) (t : String) (st : ServerState) :
    (broadcast_to_all env t st).1.connected_players =
      st.connected_players.filter (fun e => !(env.F e.1)) := by
  unfold broadcast_to_all
  apply broadcastAll_connected
  have := countFail_le env st
  omega

/-- A `broadcast_to_others` from a sender whose own socket works also keeps
exactly the players whose socket works. -/
theorem broadcast_to_others_connected (env : Env) (sender t : String)
    (st : ServerState) (hs : env.F sender = false) :
    (broadcast_to_others env sender t st).1.connected_players =
      st.connected_players.filter (fun e => !(env.F e.1)) := by
  unfold broadcast_to_others
  simp only
  apply disconnectLoop_connected env (st.connected_players.length + 1)
    (broadcastAll_connected env (st.connected_players.length + 1))
  · intro p hp
    rcases List.mem_map.mp hp with ⟨e, he, rfl⟩
    have := (List.mem_filter.mp he).2
    revert this
    cases henv : env.F e.1 <;> simp
  · intro e he hF
    apply List.mem_map.mpr
    refine ⟨e, List.mem_filter.mpr ⟨he, ?_⟩, rfl⟩
    have hne : e.1 ≠ sender := fun hh => by rw [hh, hs] at hF; cases hF
    simp [hne, hF]
  · have := countFail_le env st
    omega

theorem disconnectPlayer_sublist (env : Env) (fuel : Nat)
    (hb : ∀ (t : String) (st : ServerState),
      (broadcastAllFuel env t fuel st).1.connected_players.Sublist
        st.connected_players) (pid : String) (st : ServerState) :
    (disconnectPlayerFuel env fuel pid st).1.connected_players.Sublist
      st.connected_players := by
  rw [disconnectPlayerFuel]
  cases hg : getKey st.connected_players pid with
  | none => simp
  | some player =>
      simp only
      exact (hb _ _).trans (delKey_sublist _ _)

theorem disconnectLoop_sublist (env : Env) (fuel : Nat)
    (hb : ∀ (t : String) (st : ServerState),
      (broadcastAllFuel env t fuel st).1.connected_players.Sublist
        st.connected_players) :
    ∀ (l : List String) (st : ServerState),
      (disconnectLoopFuel env fuel l st).1.connected_players.Sublist
        st.connected_players := by
  intro l
  induction l with
  | nil => intro st; rw [disconnectLoopFuel]
  | cons p rest ih =>
      intro st
      rw [disconnectLoopFuel]
      simp only
      exact (ih _).trans (disconnectPlayer_sublist env fuel hb p st)

/-- The broadcast never adds players. -/
theorem broadcastAll_sublist (env : Env) :
    ∀ (fuel : Nat) (t : String) (st : ServerState),
      (broadcastAllFuel env t fuel st).1.connected_players.Sublist
        st.connected_players := by
  intro fuel
  induction fuel with
  | zero => intro t st; rw [broadcastAllFuel]
  | succ fuel ih =>
      intro t st
      rw [broadcastAllFuel]
      simp only
      exact disconnectLoop_sublist env fuel ih _ st

theorem disconnectPlayer_chat (env : Env) (fuel : Nat)
    (hb : ∀ (t : String) (st : ServerState),
      (broadcastAllFuel env t fuel st).1.chat_history = st.chat_history)
    (pid : String) (st : ServerState) :
    (disconnectPlayerFuel env fuel pid st).1.chat_history = st.chat_history := by
  rw [disconnectPlayerFuel]
  cases hg : getKey st.connected_players pid with
  | none => rfl
  | some player =>
      simp only
      rw [hb]

theorem disconnectLoop_chat (env : Env) (fuel : Nat)
    (hb : ∀ (t : String) (st : ServerState),
      (broadcastAllFuel env t fuel st).1.chat_history = st.chat_history) :
    ∀ (l : List String) (st : ServerState),
      (disconnectLoopFuel env fuel l st).1.chat_history = st.chat_history := by
  intro l
  induction l with
  | nil => intro st; rw [disconnectLoopFuel]
  | cons p rest ih =>
      intro st
      rw [disconnectLoopFuel]
      simp only
      rw [ih, disconnectPlayer_chat env fuel hb]

/-- No broadcast or disconnect ever touches the chat history. -/
theorem broadcastAll_chat (env : Env) :
    ∀ (fuel : Nat) (t : String) (st : ServerState),
      (broadcastAllFuel env t fuel st).1.chat_history = st.chat_history := by
  intro fuel
  induction fuel with
  | zero => intro t st; rw [broadcastAllFuel]
  | succ fuel ih =>
      intro t st
      rw [broadcastAllFuel]
      simp only
      exact disconnectLoop_chat env fuel ih _ st

theorem disconnectPlayer_effects (env : Env) (fuel : Nat)
    (hb : ∀ (t : String) (st : ServerState) (e : Effect),
      e ∈ (broadcastAllFuel env t fuel st).2 →
        (∃ q, e = Effect.send q t) ∨ (∃ q, e = Effect.send q "player_left"))
    (pid : String) (st : ServerState) (e : Effect)
    (he : e ∈ (disconnectPlayerFuel env fuel pid st).2) :
    ∃ q, e = Effect.send q "player_left" := by
  rw [disconnectPlayerFuel] at he
  cases hg : getKey st.connected_players pid with
  | none => rw [hg] at he; simp at he
  | some player =>
      rw [hg] at he
      simp only at he
      rcases hb _ _ _ he with h | h <;> exact h

theorem disconnectLoop_effects (env : Env) (fuel : Nat)
    (hb : ∀ (t : String) (st : ServerState) (e : Effect),
      e ∈ (broadcastAllFuel env t fuel st).2 →
        (∃ q, e = Effect.send q t) ∨ (∃ q, e = Effect.send q "player_left")) :
    ∀ (l : List String) (st : ServerState) (e : Effect),
      e ∈ (disconnectLoopFuel env fuel l st).2 →
        ∃ q, e = Effect.send q "player_left" := by
  intro l
  induction l with
  | nil => intro st e he; rw [disconnectLoopFuel] at he; simp at he
  | cons p rest ih =>
      intro st e he
      rw [disconnectLoopFuel] at he
      simp only [List.mem_append] at he
      rcases he with h | h
      · exact disconnectPlayer_effects env fuel hb p st e h
      · exact ih _ e h

/-- Every effect of a broadcast is a send of the broadcast message or of a
`player_left` notification (in particular, no file is ever written). -/
theorem broadcastAll_effects (env : Env) :
    ∀ (fuel : Nat) (t : String) (st : ServerState) (e : Effect),
      e ∈ (broadcastAllFuel env t fuel st).2 →
        (∃ q, e = Effect.send q t) ∨ (∃ q, e = Effect.send q "player_left") := by
  intro fuel
  induction fuel with
  | zero => intro t st e he; rw [broadcastAllFuel] at he; simp at he
  | succ fuel ih =>
      intro t st e he
      rw [broadcastAllFuel] at he
      simp only [List.mem_append] at he
      rcases he with h | h
      · rcases List.mem_map.mp h with ⟨w, _, rfl⟩
        exact Or.inl ⟨w.1, rfl⟩
      · exact Or.inr (disconnectLoop_effects env fuel ih _ st e h)

/-- Every effect of a `disconnect_player` is a `player_left` send; a
disconnect never writes any file. -/
theorem disconnect_player_effects (env : Env) (pid : String)
    (st : ServerState) (e : Effect) (he : e ∈ (disconnect_player env pid st).2) :
    ∃ q, e = Effect.send q "player_left" := by
  unfold disconnect_player at he
  exact disconnectPlayer_effects env _
    (fun t st2 e2 he2 => broadcastAll_effects env _ t st2 e2 he2) pid st e he

theorem not_mem_keys_delKey {α : Type} (l : List (String × α)) (k : String)
    (hnd : (keysOf l).Nodup) : k ∉ keysOf (delKey l k) := by
  induction l with
  | nil => simp [delKey, keysOf]
  | cons e rest ih =>
      obtain ⟨k1, v1⟩ := e
      simp only [keysOf, List.map_cons, List.nodup_cons] at hnd
      by_cases h : k1 = k
      · subst h
        simpa [delKey, keysOf] using hnd.1
      · simp only [delKey, if_neg h, keysOf, List.map_cons, List.mem_cons]
        push_neg
        exact ⟨fun hh => h (hh.symm), ih hnd.2⟩

/-- After a `disconnect_player` on a duplicate-free dict, the player is
gone from `connected_players` (the cascaded `player_left` broadcast can only
remove further players, never re-add one). -/
theorem disconnect_player_not_connected (env : Env) (pid : String)
    (st : ServerState) (hnd : (keysOf st.connected_players).Nodup) :
    hasKey (disconnect_player env pid st).1.connected_players pid = false := by
  unfold disconnect_player
  rw [disconnectPlayerFuel]
  cases hg : getKey st.connected_players pid with
  | none => simp [hasKey, hg]
  | some player =>
      simp only
      have hsub := broadcastAll_sublist env (st.connected_players.length + 1)
        "player_left"
        { st with
          player_data := Cfg.save_player_progress st.player_data
            player.player_id
            { name := some player.name
              level := some player.level
              experience := some player.experience
              regions_visited := some player.regions_visited
              last_position := some player.position
              last_login := some env.now }
          connected_players := delKey st.connected_players pid }
      have hkeys : pid ∉ keysOf (delKey st.connected_players pid) :=
        not_mem_keys_delKey st.connected_players pid hnd
      have hkeys2 : pid ∉ keysOf (broadcastAllFuel env "player_left"
          (st.connected_players.length + 1)
          { st with
            player_data := Cfg.save_player_progress st.player_data
              player.player_id
              { name := some player.name
                level := some player.level
                experience := some player.experience
                regions_visited := some player.regions_visited
                last_position := some player.position
                last_login := some env.now }
            connected_players :=
              delKey st.connected_players pid }).1.connected_players := by
        intro hmem
        exact hkeys ((hsub.map Prod.fst).mem hmem)
      simp [hasKey, getKey_eq_none_of_not_mem _ _ hkeys2]

/-- With no failing socket, a broadcast sends to everyone and changes
nothing. -/
theorem broadcastAll_noFail (env : Env) (hF : ∀ q, env.F q = false) :
    ∀ (fuel : Nat) (t : String) (st : ServerState), 0 < fuel →
      broadcastAllFuel env t fuel st =
        (st, st.connected_players.map (fun e => Effect.send e.1 t)) := by
  intro fuel t st hfuel
  cases fuel with
  | zero => omega
  | succ fuel =>
      rw [broadcastAllFuel]
      have h1 : st.connected_players.filter (fun e => !(env.F e.1)) =
          st.connected_players :=
        List.filter_eq_self.mpr (fun e _ => by simp [hF])
      have h2 : st.connected_players.filter (fun e => env.F e.1) = [] :=
        List.filter_eq_nil_iff.mpr (fun e _ => by simp [hF])
      rw [h1, h2]
      simp [disconnectLoopFuel]

/-- With no failing socket, `disconnect_player` saves the player into the
data manager's dict, deletes the entry, and sends `player_left` to each
remaining player — and performs no other state change and no file write. -/
theorem disconnect_player_noFail (env : Env) (hF : ∀ q, env.F q = false)
    (pid : String) (st : ServerState) (p : Player)
    (hg : getKey st.connected_players pid = some p) :
    disconnect_player env pid st =
      ({ connected_players := delKey st.connected_players pid
         chat_history := st.chat_history
         player_data := Cfg.save_player_progress st.player_data p.player_id
           { name := some p.name
             level := some p.level
             experience := some p.experience
             regions_visited := some p.regions_visited
             last_position := some p.position
             last_login := some env.now } },
       (delKey st.connected_players pid).map
         (fun e => Effect.send e.1 "player_left")) := by
  unfold disconnect_player
  rw [disconnectPlayerFuel, hg]
  simp only
  rw [broadcastAll_noFail env hF _ _ _ (Nat.succ_pos _)]

/-- The chat history survives a full `broadcast_to_all`. -/
theorem broadcast_to_all_chat (env : Env) (t : String) (st : ServerState) :
    (broadcast_to_all env t st).1.chat_history = st.chat_history :=
  broadcastAll_chat env _ t st

/-- A sender with a working socket keeps its dict entry across a
`broadcast_to_others`. -/
theorem broadcast_to_others_getKey (env : Env) (sender t : String)
    (st : ServerState) (hs : env.F sender = false) :
    getKey (broadcast_to_others env sender t st).1.connected_players sender =
      getKey st.connected_players sender := by
  rw [broadcast_to_others_connected env sender t st hs]
  exact getKey_filter _ _ _ (fun v => by simp [hs])

end IS

/-! ## Lemmas about the AI 3D model agent -/

namespace Agent

theorem dataclassCall_aiService (v : ModelMetadata) :
    dataclassCall aiServiceKwargs v = Except.error PyErr.typeError := rfl

theorem dataclassCall_download (v : ModelMetadata) :
    dataclassCall downloadKwargs v = Except.ok v := rfl

theorem dataclassCall_openai (v : ModelMetadata) :
    dataclassCall openaiKwargs v = Except.ok v := rfl

theorem dataclassCall_blender (v : ModelMetadata) :
    dataclassCall blenderKwargs v = Except.ok v := rfl

theorem dataclassCall_placeholder (v : ModelMetadata) :
    dataclassCall placeholderKwargs v = Except.ok v := rfl

theorem subset_addFile (files : List String) (p : String) :
    files ⊆ addFile files p := by
  unfold addFile
  by_cases h : p ∈ files
  · simp [h]
  · simp only [if_neg h]
    exact List.subset_append_left _ _

theorem mem_addFile_self (files : List String) (p : String) :
    p ∈ addFile files p := by
  unfold addFile
  by_cases h : p ∈ files <;> simp [h]

/-- The four always-"available" AI-service routines return `None`: their
`ModelMetadata(...)` call passes the undeclared keyword
`generation_metadata`, raising `TypeError` inside the routine's `try`. -/
theorem generate_with_luma_ai_none (env : AgentEnv) (now : ℚ)
    (r : ModelRequest) (mid : String) (files : List String) :
    (generate_with_luma_ai env now r mid files).2.2 = none := rfl

theorem generate_with_meshy_ai_none (env : AgentEnv) (now : ℚ)
    (r : ModelRequest) (mid : String) (files : List String) :
    (generate_with_meshy_ai env now r mid files).2.2 = none := rfl

theorem generate_with_kaedim_none (env : AgentEnv) (now : ℚ)
    (r : ModelRequest) (mid : String) (files : List String) :
    (generate_with_kaedim env now r mid files).2.2 = none := rfl

theorem generate_with_scenario_gg_none (env : AgentEnv) (now : ℚ)
    (r : ModelRequest) (mid : String) (files : List String) :
    (generate_with_scenario_gg env now r mid files).2.2 = none := rfl

/-- File-tracking contract of a model producer: files only grow, and a
returned metadata record points at a file that now exists. -/
def ProducerOk (files : List String)
    (res : List AEffect × List String × Option ModelMetadata) : Prop :=
  files ⊆ res.2.1 ∧ ∀ md, res.2.2 = some md → md.file_path ∈ res.2.1

theorem generate_with_luma_ai_ok (env : AgentEnv) (now : ℚ)
    (r : ModelRequest) (mid : String) (files : List String) :
    ProducerOk files (generate_with_luma_ai env now r mid files) := by
  constructor
  · exact subset_addFile _ _
  · intro md h
    rw [generate_with_luma_ai_none] at h
    cases h

theorem generate_with_meshy_ai_ok (env : AgentEnv) (now : ℚ)
    (r : ModelRequest) (mid : String) (files : List String) :
    ProducerOk files (generate_with_meshy_ai env now r mid files) := by
  constructor
  · exact subset_addFile _ _
  · intro md h
    rw [generate_with_meshy_ai_none] at h
    cases h

theorem generate_with_kaedim_ok (env : AgentEnv) (now : ℚ)
    (r : ModelRequest) (mid : String) (files : List String) :
    ProducerOk files (generate_with_kaedim env now r mid files) := by
  constructor
  · exact subset_addFile _ _
  · intro md h
    rw [generate_with_kaedim_none] at h
    cases h

theorem generate_with_scenario_gg_ok (env : AgentEnv) (now : ℚ)
    (r : ModelRequest) (mid : String) (files : List String) :
    ProducerOk files (generate_with_scenario_gg env now r mid files) := by
  constructor
  · exact subset_addFile _ _
  · intro md h
    rw [generate_with_scenario_gg_none] at h
    cases h

theorem generate_with_openai_ok (env : AgentEnv) (now : ℚ)
    (r : ModelRequest) (mid : String) (files : List String) :
    ProducerOk files (generate_with_openai env now r mid files) := by
  unfold generate_with_openai
  by_cases h : env.hasOpenai
  · simp only [h, Bool.not_true, Bool.false_eq_true, if_false,
      dataclassCall_openai]
    exact ⟨subset_addFile _ _, fun md hmd => by
      cases hmd; exact mem_addFile_self _ _⟩
  · simp only [Bool.not_eq_true] at h
    simp only [h, Bool.not_false, if_true]
    exact ⟨fun a ha => ha, fun md hmd => by cases hmd⟩

theorem generate_with_replicate_ok (files : List String) :
    ProducerOk files (generate_with_replicate files) :=
  ⟨fun a ha => ha, fun md hmd => by cases hmd⟩

theorem generate_with_blender_ok (env : AgentEnv) (now : ℚ)
    (r : ModelRequest) (mid : String) (files : List String) :
    ProducerOk files (generate_with_blender env now r mid files) := by
  unfold generate_with_blender
  simp only [dataclassCall_blender]
  exact ⟨subset_addFile _ _, fun md hmd => by
    cases hmd; exact mem_addFile_self _ _⟩

theorem runService_ok (env : AgentEnv) (now : ℚ) (r : ModelRequest)
    (mid : String) (files : List String) (s : String) :
    ProducerOk files (runService env now r mid files s) := by
  unfold runService
  split_ifs
  · exact generate_with_luma_ai_ok env now r mid files
  · exact generate_with_meshy_ai_ok env now r mid files
  · exact generate_with_kaedim_ok env now r mid files
  · exact generate_with_scenario_gg_ok env now r mid files
  · exact generate_with_openai_ok env now r mid files
  · exact generate_with_replicate_ok files
  · exact generate_with_blender_ok env now r mid files
  · exact ⟨fun a ha => ha, fun md hmd => by cases hmd⟩

theorem tryServicesLoop_ok (env : AgentEnv) (now : ℚ) (r : ModelRequest)
    (mid : String) :
    ∀ (services : List String) (files : List String),
      ProducerOk files (tryServicesLoop env now r mid services files) := by
  intro services
  induction services with
  | nil => intro files; exact ⟨fun a ha => ha, fun md hmd => by cases hmd⟩
  | cons s rest ih =>
      intro files
      unfold tryServicesLoop
      by_cases ha : serviceAvailable env s = true
      · simp only [ha, if_true]
        have h1 := runService_ok env now r mid files s
        cases hres : (runService env now r mid files s).2.2 with
        | some md =>
            simp only [hres]
            exact ⟨h1.1, fun md2 hmd2 => by
              cases hmd2; exact h1.2 md hres⟩
        | none =>
            simp only [hres]
            have h2 := ih (runService env now r mid files s).2.1
            exact ⟨fun a haa => h2.1 (h1.1 haa), h2.2⟩
      · simp only [ha, if_false]
        exact ih files

theorem try_ai_generation_ok (env : AgentEnv) (now : ℚ) (r : ModelRequest)
    (mid : String) (files : List String) :
    ProducerOk files (try_ai_generation env now r mid files) :=
  tryServicesLoop_ok env now r mid _ files

theorem download_model_ok (env : AgentEnv) (now : ℚ) (r : ModelRequest)
    (mid : String) (files : List String) (repoName : String)
    (best : RepoInfo) :
    ProducerOk files (download_model env now r mid files repoName best) := by
  unfold download_model
  simp only [dataclassCall_download]
  exact ⟨subset_addFile _ _, fun md hmd => by
    cases hmd; exact mem_addFile_self _ _⟩

theorem try_download_online_ok (env : AgentEnv) (now : ℚ) (r : ModelRequest)
    (mid : String) (files : List String) :
    ProducerOk files (try_download_online env now r mid files) := by
  unfold try_download_online
  simp only
  cases hres : (env.sketchfab (String.intercalate " "
      (generate_search_terms r))).take 5 with
  | nil =>
      simp only [hres]
      exact ⟨fun a ha => ha, fun md hmd => by cases hmd⟩
  | cons best rest =>
      simp only [hres]
      have h := download_model_ok env now r mid files "sketchfab" best
      exact ⟨h.1, h.2⟩

theorem create_placeholder_model_spec (env : AgentEnv) (now : ℚ)
    (r : ModelRequest) (mid : String) (files : List String) :
    ∃ md, (create_placeholder_model env now r mid files).2.2 = some md ∧
      md.file_path ∈ (create_placeholder_model env now r mid files).2.1 ∧
      files ⊆ (create_placeholder_model env now r mid files).2.1 := by
  unfold create_placeholder_model
  simp only [dataclassCall_placeholder]
  exact ⟨_, rfl, mem_addFile_self _ _, subset_addFile _ _⟩

/-- The creation pipeline always produces a metadata record (the placeholder
cannot fail), stores it in the cache under the given id, and only grows the
file system; the record's file exists afterwards. -/
theorem createModel_spec (env : AgentEnv) (now : ℚ) (st : AgentState)
    (r : ModelRequest) (mid : String) :
    st.files ⊆ (createModel env now st r mid).1.files ∧
    ∃ md, (createModel env now st r mid).2.2 = some md ∧
      (createModel env now st r mid).1.model_cache =
        setKey st.model_cache mid md ∧
      md.file_path ∈ (createModel env now st r mid).1.files := by
  unfold createModel
  have h1 := try_download_online_ok env now r mid st.files
  cases ho1 : (try_download_online env now r mid st.files).2.2 with
  | some md1 =>
      simp only [ho1]
      refine ⟨fun a ha => subset_addFile _ _ (h1.1 ha), md1, rfl, rfl, ?_⟩
      exact subset_addFile _ _ (h1.2 md1 ho1)
  | none =>
      simp only [ho1]
      have h2 := try_ai_generation_ok env now r mid
        (try_download_online env now r mid st.files).2.1
      cases ho2 : (try_ai_generation env now r mid
          (try_download_online env now r mid st.files).2.1).2.2 with
      | some md2 =>
          simp only [ho2]
          refine ⟨fun a ha => subset_addFile _ _ (h2.1 (h1.1 ha)), md2, rfl,
            rfl, ?_⟩
          exact subset_addFile _ _ (h2.2 md2 ho2)
      | none =>
          simp only [ho2]
          rcases create_placeholder_model_spec env now r mid
            (try_ai_generation env now r mid
              (try_download_online env now r mid st.files).2.1).2.1 with
            ⟨md3, hmd3, hp3, hs3⟩
          simp only [hmd3]
          refine ⟨fun a ha => subset_addFile _ _ (hs3 (h2.1 (h1.1 ha))),
            md3, rfl, rfl, ?_⟩
          exact subset_addFile _ _ hp3

/-- Invariant: every cached record points at an existing file. -/
def Inv (s : AgentState) : Prop :=
  ∀ e ∈ s.model_cache, e.2.file_path ∈ s.files

theorem createModel_inv (env : AgentEnv) (now : ℚ) (st : AgentState)
    (r : ModelRequest) (mid : String) (hInv : Inv st) :
    Inv (createModel env now st r mid).1 := by
  rcases createModel_spec env now st r mid with ⟨hsub, md, _, hcache, hmem⟩
  intro e he
  rw [hcache] at he
  rcases mem_setKey he with h | h
  · rw [h]
    exact hmem
  · exact hsub (hInv e h)

/-- One `get_or_create_model` call from an invariant state: the invariant is
preserved, the file system only grows, no cache key is ever dropped, and the
returned record is stored in the cache under the request's deterministic
id. -/
theorem get_or_create_spec (env : AgentEnv) (now : ℚ) (st : AgentState)
    (r : ModelRequest) (hInv : Inv st) :
    Inv (get_or_create_model env now st r).1 ∧
    st.files ⊆ (get_or_create_model env now st r).1.files ∧
    (∀ k, hasKey st.model_cache k = true →
      hasKey (get_or_create_model env now st r).1.model_cache k = true) ∧
    ∃ md, (get_or_create_model env now st r).2.2 = some md ∧
      getKey (get_or_create_model env now st r).1.model_cache
        (generate_model_id env r.content_name r.content_type) = some md := by
  unfold get_or_create_model
  simp only
  cases hg : getKey st.model_cache
      (generate_model_id env r.content_name r.content_type) with
  | some md0 =>
      have hfile : md0.file_path ∈ st.files :=
        hInv _ (IS.getKey_some_mem hg)
      simp only [hfile, if_true]
      refine ⟨?_, fun a ha => ha, fun k hk => hasKey_setKey _ _ _ _ hk,
        { md0 with last_accessed := now }, rfl, getKey_setKey_self _ _ _⟩
      intro e he
      rcases mem_setKey he with h | h
      · rw [h]
        exact hfile
      · exact hInv e h
  | none =>
      rcases createModel_spec env now st r
          (generate_model_id env r.content_name r.content_type) with
        ⟨hsub, md, hsome, hcache, hmem⟩
      refine ⟨createModel_inv env now st r _ hInv, hsub, ?_, md, hsome, ?_⟩
      · intro k hk
        rw [hcache]
        exact hasKey_setKey _ _ _ _ hk
      · rw [hcache]
        exact getKey_setKey_self _ _ _

/-- Every state reachable by `get_or_create_model` calls satisfies the
file-exists invariant (so the missing-file eviction branch is never
taken). -/
theorem reachable_inv (env : AgentEnv) :
    ∀ s, Reachable env s → Inv s := by
  intro s h
  induction h with
  | base => intro e he; cases he
  | step s now r _ ih => exact (get_or_create_spec env now s r ih).1

/-- A cache hit whose file exists refreshes `last_accessed` (in the cache
and in the returned record), performs no effect and touches no file. -/
theorem get_or_create_cached (env : AgentEnv) (now : ℚ) (st : AgentState)
    (r : ModelRequest) (md : ModelMetadata)
    (hg : getKey st.model_cache
      (generate_model_id env r.content_name r.content_type) = some md)
    (hfile : md.file_path ∈ st.files) :
    (get_or_create_model env now st r).1.model_cache =
      setKey st.model_cache
        (generate_model_id env r.content_name r.content_type)
        { md with last_accessed := now } ∧
    (get_or_create_model env now st r).1.files = st.files ∧
    (get_or_create_model env now st r).2.1 = [] ∧
    (get_or_create_model env now st r).2.2 =
      some { md with last_accessed := now } := by
  unfold get_or_create_model
  simp only [hg, hfile, if_true]
  exact ⟨trivial, trivial, trivial, trivial⟩

end Agent

/-! ## Claim theorems -/

/-- C4: For every coordinate pair (x, z) (and any height y), the
region-from-position function returns exactly one of the five regions — it
is a total function into the five-member `Region` enum, so the iffs below
partition the plane — and each region's zone is a fixed rectangular subset
of the coordinate plane: a product of (possibly unbounded) intervals in x
and z. -/
theorem claim_C4_region_zones_are_rectangles (x y z : ℚ) :
    (AB.get_region_from_position ⟨x, y, z⟩ = Region.dust_plains ↔
      x < -200) ∧
    (AB.get_region_from_position ⟨x, y, z⟩ = Region.ocean_frontier ↔
      x > 200) ∧
    (AB.get_region_from_position ⟨x, y, z⟩ = Region.himalayan_peaks ↔
      -200 ≤ x ∧ x ≤ 200 ∧ z > 200) ∧
    (AB.get_region_from_position ⟨x, y, z⟩ = Region.narmada_forest ↔
      -200 ≤ x ∧ x ≤ 200 ∧ z < -100) ∧
    (AB.get_region_from_position ⟨x, y, z⟩ = Region.indrapura_city ↔
      -200 ≤ x ∧ x ≤ 200 ∧ -100 ≤ z ∧ z ≤ 200) := by
  unfold AB.get_region_from_position
  split_ifs with h1 h2 h3 h4 <;>
    refine ⟨?_, ?_, ?_, ?_, ?_⟩ <;>
    (constructor <;> intro h) <;>
    (try simp_all) <;>
    (try obtain ⟨hc1, hc2⟩ := h) <;>
    (try obtain ⟨hc3, hc4⟩ := hc2) <;>
    (try linarith)

/-- C8: the hard-coded region boundaries of
`AncientBharatServer.get_region_from_position` agree with
`IntegratedAncientBharatServer.get_region_from_position`, which delegates to
`ConfigManager.is_in_region` with the default `WorldConfig` boundaries
(-200, 200, 200, -100): both functions return the same region at every
coordinate pair. -/
theorem claim_C8_region_functions_agree (x y z : ℚ) :
    AB.get_region_from_position ⟨x, y, z⟩ = IS.get_region_from_position x z := by
  unfold AB.get_region_from_position IS.get_region_from_position
    Cfg.is_in_region Cfg.worldConfig
  simp only [decide_eq_true_eq, String.reduceEq, if_false, if_true]

/-- C5: the message handler dispatches solely on the `"type"` field; any
message whose type matches none of the ten handled discriminators falls to
the `else` branch, which only prints: the state (connected players, chat
history, persisted data) is returned unchanged, no effect is produced (no
socket send), and the session continues.  This holds for every behaviour of
the six handler coroutines the claims do not model (they are quantified in
`env`). -/
theorem claim_C5_unknown_type_is_noop (env : IS.Env) (st : IS.ServerState)
    (pid : String) (m : IS.Message)
    (hm : ∀ t ∈ IS.handledTypes, m.mtype ≠ some t) :
    IS.handle_websocket_message_step env st pid m = (st, [], true) := by
  have h1 : ¬(m.mtype = some "movement") :=
    hm "movement" (by simp [IS.handledTypes])
  have h2 : ¬(m.mtype = some "chat") := hm "chat" (by simp [IS.handledTypes])
  have h3 : ¬(m.mtype = some "npc_interaction") :=
    hm "npc_interaction" (by simp [IS.handledTypes])
  have h4 : ¬(m.mtype = some "quest_action") :=
    hm "quest_action" (by simp [IS.handledTypes])
  have h5 : ¬(m.mtype = some "voice_chat") :=
    hm "voice_chat" (by simp [IS.handledTypes])
  have h6 : ¬(m.mtype = some "karma_action") :=
    hm "karma_action" (by simp [IS.handledTypes])
  have h7 : ¬(m.mtype = some "npc_voice_interaction") :=
    hm "npc_voice_interaction" (by simp [IS.handledTypes])
  have h8 : ¬(m.mtype = some "procedural_content") :=
    hm "procedural_content" (by simp [IS.handledTypes])
  have h9 : ¬(m.mtype = some "3d_model_request") :=
    hm "3d_model_request" (by simp [IS.handledTypes])
  have h10 : ¬(m.mtype = some "world_interaction") :=
    hm "world_interaction" (by simp [IS.handledTypes])
  simp only [IS.handle_websocket_message_step, if_neg h1, if_neg h2,
    if_neg h3, if_neg h4, if_neg h5, if_neg h6, if_neg h7, if_neg h8,
    if_neg h9, if_neg h10]

/-- Witness for C5 at a concrete unknown message type. -/
theorem claim_C5_witness :
    (∀ t ∈ IS.handledTypes,
      ({ mtype := some "dance" } : IS.Message).mtype ≠ some t) ∧
    IS.handle_websocket_message_step Wit.isEnvNoFail Wit.isState1 "p1"
      { mtype := some "dance" } = (Wit.isState1, [], true) :=
  ⟨by decide, claim_C5_unknown_type_is_noop Wit.isEnvNoFail Wit.isState1 "p1"
    { mtype := some "dance" } (by decide)⟩

theorem getKey_filter_none {α : Type} (q : String × α → Bool)
    (l : List (String × α)) (k : String) (hq : ∀ v, q (k, v) = false) :
    getKey (l.filter q) k = none := by
  induction l with
  | nil => rfl
  | cons e rest ih =>
      obtain ⟨k1, v1⟩ := e
      by_cases h : k1 = k
      · subst h; simp [List.filter_cons, hq v1, ih]
      · simp only [List.filter_cons]
        by_cases h2 : q (k1, v1) = true <;> simp [h2, getKey, h, ih]

/-- C2 counterexample: in `AncientBharatServer._broadcast_to_all` (one of
the two cited broadcast functions), a player whose socket raises is NOT
dropped from the in-memory players dict — only its websocket is removed
from the connections list.  Player `p1` sits on websocket `w1`, `send_text`
on `w1` raises, yet `p1` is still present afterwards, contradicting the
claim that every player in the failing set is dropped from the
connected-players dictionary. -/
theorem claim_C2_counterexample :
    Wit.abEnvW1Fail.Ffail "w1" = true ∧
    Wit.abPlayer1.websocket = some "w1" ∧
    hasKey (AB.broadcast_to_all Wit.abEnvW1Fail "chat"
      Wit.abState2).1.players "p1" = true ∧
    (AB.broadcast_to_all Wit.abEnvW1Fail "chat" Wit.abState2).1.connections =
      ["w2"] := by
  refine ⟨rfl, rfl, rfl, ?_⟩
  rfl

/-- C2 as amended: in the integrated server, `broadcast_to_all` keeps
exactly the players whose socket works (everyone in the failing set is
dropped, everyone else stays; the function is total, so no exception
escapes).  In the base `AncientBharatServer`, `_broadcast_to_all` leaves the
players dict unchanged and instead removes exactly the failing websockets
from the connections list (again totally). -/
theorem claim_C2_amended_broadcast_prunes :
    (∀ (env : IS.Env) (t : String) (st : IS.ServerState),
      (IS.broadcast_to_all env t st).1.connected_players =
        st.connected_players.filter (fun e => !(env.F e.1)) ∧
      (∀ pid, hasKey (IS.broadcast_to_all env t st).1.connected_players pid =
        (hasKey st.connected_players pid && !(env.F pid)))) ∧
    (∀ (env : AB.Env) (t : String) (st : AB.ServerState),
      (AB.broadcast_to_all env t st).1.players = st.players ∧
      (st.connections.Nodup →
        (AB.broadcast_to_all env t st).1.connections =
          st.connections.filter (fun c => !(env.Ffail c)))) := by
  constructor
  · intro env t st
    refine ⟨IS.broadcast_to_all_connected env t st, fun pid => ?_⟩
    rw [IS.broadcast_to_all_connected env t st]
    simp only [hasKey]
    by_cases hF : env.F pid = true
    · rw [getKey_filter_none _ _ _ (fun v => by simp [hF])]
      simp [hF]
    · have hF2 : env.F pid = false := by revert hF; cases env.F pid <;> simp
      rw [getKey_filter _ _ _ (fun v => by simp [hF2])]
      simp [hF2]
  · intro env t st
    exact AB.broadcast_to_all_spec env t st

/-- Witness for the amended C2 on the concrete two-player state. -/
theorem claim_C2_amended_witness :
    Wit.abState2.connections.Nodup ∧
    (AB.broadcast_to_all Wit.abEnvW1Fail "chat" Wit.abState2).1.players =
      Wit.abState2.players ∧
    (AB.broadcast_to_all Wit.abEnvW1Fail "chat" Wit.abState2).1.connections =
      Wit.abState2.connections.filter (fun c => !(Wit.abEnvW1Fail.Ffail c)) ∧
    hasKey (IS.broadcast_to_all Wit.isEnvNoFail "chat"
        Wit.isState1).1.connected_players "p1" =
      (hasKey Wit.isState1.connected_players "p1" &&
        !(Wit.isEnvNoFail.F "p1")) := by
  have hnd : Wit.abState2.connections.Nodup := by decide
  refine ⟨hnd,
    (claim_C2_amended_broadcast_prunes.2 Wit.abEnvW1Fail "chat" Wit.abState2).1,
    (claim_C2_amended_broadcast_prunes.2 Wit.abEnvW1Fail "chat"
      Wit.abState2).2 hnd,
    (claim_C2_amended_broadcast_prunes.1 Wit.isEnvNoFail "chat"
      Wit.isState1).2 "p1"⟩

/-- C3 counterexample: disconnecting connected player `p1` performs NO file
write at all — the effect list of `disconnect_player` is empty here (there
is no one left to notify and nothing is written to disk), contradicting the
claim that the player's persisted state is written to a JSON file on disk
on disconnect.  (The state goes only into the in-memory `player_data` dict;
files are written by `save_all_data` during auto-save/shutdown/admin
save.) -/
theorem claim_C3_counterexample :
    hasKey Wit.isState1.connected_players "p1" = true ∧
    (IS.disconnect_player Wit.isEnvNoFail "p1" Wit.isState1).2 = [] := by
  refine ⟨rfl, ?_⟩
  rw [IS.disconnect_player_noFail Wit.isEnvNoFail (fun _ => rfl) "p1"
    Wit.isState1 (Wit.isPlayer "p1") rfl]
  rfl

/-- C3 as amended: disconnecting a connected player saves the player's state
(name, level, experience, regions visited, last position, plus defaulted
fields and a login timestamp) into the data manager's in-memory
`player_data` dict under the player's id, removes the player from
`connected_players`, and writes nothing to disk — every effect of a
disconnect is a `player_left` send.  Disk persistence happens in
`GameDataManager.save_all_data`, which writes the four shared JSON files
(one `player_data.json` holding all players — not one file per player). -/
theorem claim_C3_amended_disconnect_saves_to_memory :
    (∀ (env : IS.Env) (pid : String) (st : IS.ServerState),
      ∀ e ∈ (IS.disconnect_player env pid st).2, ∀ path,
        e ≠ Effect.fileWrite path) ∧
    (∀ (env : IS.Env) (pid : String) (st : IS.ServerState) (p : IS.Player),
      (∀ q, env.F q = false) →
      getKey st.connected_players pid = some p →
      getKey (IS.disconnect_player env pid st).1.player_data p.player_id =
        some { name := p.name, level := p.level, experience := p.experience
               regions_visited := p.regions_visited, quests_completed := []
               npc_reputation := [], last_position := p.position
               play_time := 0, last_login := env.now } ∧
      (IS.disconnect_player env pid st).1.connected_players =
        delKey st.connected_players pid ∧
      (IS.disconnect_player env pid st).1.chat_history = st.chat_history) ∧
    Cfg.save_all_data =
      [Effect.fileWrite "game_data/player_data.json",
       Effect.fileWrite "game_data/world_state.json",
       Effect.fileWrite "game_data/quest_progress.json",
       Effect.fileWrite "game_data/npc_states.json"] := by
  refine ⟨?_, ?_, rfl⟩
  · intro env pid st e he path
    rcases IS.disconnect_player_effects env pid st e he with ⟨q, rfl⟩
    simp
  · intro env pid st p hF hg
    rw [IS.disconnect_player_noFail env hF pid st p hg]
    refine ⟨?_, rfl, rfl⟩
    exact getKey_setKey_self _ _ _

/-- Witness for the amended C3 on a concrete one-player state. -/
theorem claim_C3_amended_witness :
    (∀ q, Wit.isEnvNoFail.F q = false) ∧
    getKey Wit.isState1.connected_players "p1" = some (Wit.isPlayer "p1") ∧
    (getKey (IS.disconnect_player Wit.isEnvNoFail "p1"
        Wit.isState1).1.player_data (Wit.isPlayer "p1").player_id =
      some { name := (Wit.isPlayer "p1").name
             level := (Wit.isPlayer "p1").level
             experience := (Wit.isPlayer "p1").experience
             regions_visited := (Wit.isPlayer "p1").regions_visited
             quests_completed := [], npc_reputation := []
             last_position := (Wit.isPlayer "p1").position
             play_time := 0, last_login := Wit.isEnvNoFail.now } ∧
     (IS.disconnect_player Wit.isEnvNoFail "p1"
        Wit.isState1).1.connected_players =
       delKey Wit.isState1.connected_players "p1" ∧
     (IS.disconnect_player Wit.isEnvNoFail "p1" Wit.isState1).1.chat_history =
       Wit.isState1.chat_history) :=
  ⟨fun _ => rfl, rfl,
    claim_C3_amended_disconnect_saves_to_memory.2.1 Wit.isEnvNoFail "p1"
      Wit.isState1 (Wit.isPlayer "p1") (fun _ => rfl) rfl⟩

/-- C9: after every `handle_chat_message` call on a state within the bound,
the chat history holds at most `max_chat_history` (default 100) messages;
a non-empty message from a connected player is appended and, exactly when
the bound would be exceeded, the single oldest message is popped first — so
the history is the suffix of most recent messages in arrival order; empty
(after `strip`) messages and unknown senders change nothing. -/
theorem claim_C9_chat_history_bounded (env : IS.Env) (st : IS.ServerState)
    (pid : String) (m : IS.Message)
    (hlen : st.chat_history.length ≤ Cfg.serverConfig.max_chat_history) :
    (IS.handle_chat_message env st pid m).1.chat_history.length ≤
      Cfg.serverConfig.max_chat_history ∧
    (∀ p, getKey st.connected_players pid = some p →
      pyStrip (m.message.getD "") ≠ "" →
      (IS.handle_chat_message env st pid m).1.chat_history =
        (st.chat_history ++
          [IS.mkChatMsg env pid p (pyStrip (m.message.getD ""))]).drop
          (st.chat_history.length + 1 - Cfg.serverConfig.max_chat_history)) ∧
    ((getKey st.connected_players pid = none ∨
      pyStrip (m.message.getD "") = "") →
      (IS.handle_chat_message env st pid m).1.chat_history =
        st.chat_history) := by
  cases hg : getKey st.connected_players pid with
  | none =>
      have heq : IS.handle_chat_message env st pid m = (st, [], none) := by
        unfold IS.handle_chat_message
        rw [hg]
      rw [heq]
      exact ⟨hlen, fun p hp => Option.noConfusion hp, fun _ => rfl⟩
  | some p =>
      by_cases hmsg : pyStrip (m.message.getD "") = ""
      · have heq : IS.handle_chat_message env st pid m = (st, [], none) := by
          unfold IS.handle_chat_message
          rw [hg]
          simp [hmsg]
        rw [heq]
        refine ⟨hlen, ?_, fun _ => rfl⟩
        intro p2 hp2 hne
        exact absurd hmsg hne
      · have heq : (IS.handle_chat_message env st pid m).1.chat_history =
            (if (st.chat_history ++
                [IS.mkChatMsg env pid p (pyStrip (m.message.getD ""))]).length >
                Cfg.serverConfig.max_chat_history then
              (st.chat_history ++
                [IS.mkChatMsg env pid p (pyStrip (m.message.getD ""))]).drop 1
            else
              st.chat_history ++
                [IS.mkChatMsg env pid p (pyStrip (m.message.getD ""))]) := by
          unfold IS.handle_chat_message
          rw [hg]
          simp only [if_neg hmsg]
          rw [IS.broadcast_to_all_chat]
          rfl
        refine ⟨?_, ?_, ?_⟩
        · rw [heq]
          by_cases hgt : (st.chat_history ++
              [IS.mkChatMsg env pid p (pyStrip (m.message.getD ""))]).length >
              Cfg.serverConfig.max_chat_history
          · rw [if_pos hgt]
            rw [List.length_drop]
            rw [List.length_append] at hgt ⊢
            simp at hgt ⊢
            omega
          · rw [if_neg hgt]
            rw [List.length_append] at hgt ⊢
            simp at hgt ⊢
            omega
        · intro p2 hp2 hne
          injection hp2 with hinj
          subst hinj
          rw [heq]
          by_cases hgt : (st.chat_history ++
              [IS.mkChatMsg env pid p (pyStrip (m.message.getD ""))]).length >
              Cfg.serverConfig.max_chat_history
          · rw [if_pos hgt]
            have hd : st.chat_history.length + 1 -
                Cfg.serverConfig.max_chat_history = 1 := by
              rw [List.length_append] at hgt
              simp at hgt
              omega
            rw [hd]
          · rw [if_neg hgt]
            have hd : st.chat_history.length + 1 -
                Cfg.serverConfig.max_chat_history = 0 := by
              rw [List.length_append] at hgt
              simp at hgt
              omega
            rw [hd, List.drop_zero]
        · intro hcase
          rcases hcase with h | h
          · cases h
          · exact absurd h hmsg

/-- Witness for C9: a concrete " hi " message from `p1` on an empty
history. -/
theorem claim_C9_witness :
    Wit.isState1.chat_history.length ≤ Cfg.serverConfig.max_chat_history ∧
    getKey Wit.isState1.connected_players "p1" = some (Wit.isPlayer "p1") ∧
    pyStrip ((some " hi " : Option String).getD "") ≠ "" ∧
    (IS.handle_chat_message Wit.isEnvNoFail Wit.isState1 "p1"
      { mtype := some "chat", message := some " hi " }).1.chat_history =
      (Wit.isState1.chat_history ++
        [IS.mkChatMsg Wit.isEnvNoFail "p1" (Wit.isPlayer "p1")
          (pyStrip ((some " hi " : Option String).getD ""))]).drop
        (Wit.isState1.chat_history.length + 1 -
          Cfg.serverConfig.max_chat_history) :=
  ⟨by decide, rfl, by decide,
    (claim_C9_chat_history_bounded Wit.isEnvNoFail Wit.isState1 "p1"
      { mtype := some "chat", message := some " hi " } (by decide)).2.1
      (Wit.isPlayer "p1") rfl (by decide)⟩

/-- C10: for every connected player, an `npc_interaction` message with a
non-empty `npc_id` raises `AttributeError` inside `handle_npc_interaction`
(the handler reads `player.region`, an attribute the `Player` dataclass does
not define — it defines `current_region`) before any state change or send;
the websocket loop's broad `except` then disconnects the sender.  So the
request never produces an `npc_interaction` response and always ends the
sender's session.  This holds for every behaviour of the NPC subsystem
(`env.npcRest` is unreachable and universally quantified). -/
theorem claim_C10_npc_interaction_raises (env : IS.Env) (st : IS.ServerState)
    (pid : String) (m : IS.Message) (p : IS.Player) (s : String)
    (hconn : getKey st.connected_players pid = some p)
    (hnd : (keysOf st.connected_players).Nodup)
    (htype : m.mtype = some "npc_interaction")
    (hnpc : m.npc_id = some s) (hs : s ≠ "") :
    IS.Player.attr p "region" = none ∧
    IS.handle_npc_interaction env st pid m =
      (st, [], some PyErr.attributeError) ∧
    (IS.handle_websocket_message_step env st pid m).2.2 = false ∧
    hasKey (IS.handle_websocket_message_step env st pid m).1.connected_players
      pid = false ∧
    (∀ e ∈ (IS.handle_websocket_message_step env st pid m).2.1, ∀ q,
      e ≠ Effect.send q "npc_interaction") := by
  have hh : IS.handle_npc_interaction env st pid m =
      (st, [], some PyErr.attributeError) := by
    unfold IS.handle_npc_interaction
    rw [hconn, hnpc]
    simp only [hs, if_neg]
    simp [IS.Player.attr, hs]
  have hstep : IS.handle_websocket_message_step env st pid m =
      ((IS.disconnect_player env pid st).1,
        [] ++ (IS.disconnect_player env pid st).2, false) := by
    unfold IS.handle_websocket_message_step
    rw [htype]
    simp only [Option.some.injEq, String.reduceEq, if_false, if_true]
    rw [show (IS.handle_npc_interaction env st pid m) =
      (st, [], some PyErr.attributeError) from hh]
  refine ⟨rfl, hh, ?_, ?_, ?_⟩
  · rw [hstep]
  · rw [hstep]
    exact IS.disconnect_player_not_connected env pid st hnd
  · rw [hstep]
    intro e he q
    simp only [List.nil_append] at he
    rcases IS.disconnect_player_effects env pid st e he with ⟨w, rfl⟩
    simp

/-- Witness for C10: player `p1` sends `npc_interaction` for npc `guru`. -/
theorem claim_C10_witness :
    getKey Wit.isState1.connected_players "p1" = some (Wit.isPlayer "p1") ∧
    (keysOf Wit.isState1.connected_players).Nodup ∧
    IS.handle_npc_interaction Wit.isEnvNoFail Wit.isState1 "p1" Wit.npcMsg =
      (Wit.isState1, [], some PyErr.attributeError) ∧
    (IS.handle_websocket_message_step Wit.isEnvNoFail Wit.isState1 "p1"
      Wit.npcMsg).2.2 = false ∧
    hasKey (IS.handle_websocket_message_step Wit.isEnvNoFail Wit.isState1
      "p1" Wit.npcMsg).1.connected_players "p1" = false := by
  have h := claim_C10_npc_interaction_raises Wit.isEnvNoFail Wit.isState1
    "p1" Wit.npcMsg (Wit.isPlayer "p1") "guru" rfl (by decide) rfl rfl
    (by decide)
  exact ⟨rfl, by decide, h.2.1, h.2.2.1, h.2.2.2.1⟩

/-- In the integrated server, a movement message from a connected player
with a working socket that keeps the player inside their current region
stores exactly the coordinates carried by the message, each absent
coordinate keeping its previous value, and no exception escapes. -/
theorem IS.handle_player_movement_position (env : IS.Env)
    (st : IS.ServerState) (pid : String) (m : IS.Message) (p : IS.Player)
    (hFpid : env.F pid = false)
    (hconn : getKey st.connected_players pid = some p)
    (hre : IS.get_region_from_position (m.x.getD p.position.x)
      (m.z.getD p.position.z) = p.current_region) :
    ∃ p2, getKey
        (IS.handle_player_movement env st pid m).1.connected_players pid =
        some p2 ∧
      p2.position = { x := m.x.getD p.position.x, y := m.y.getD p.position.y,
                      z := m.z.getD p.position.z } ∧
      (IS.handle_player_movement env st pid m).2.2 = none := by
  unfold IS.handle_player_movement
  rw [hconn]
  simp only [hFpid, Bool.false_eq_true, if_false]
  rw [if_neg (not_not_intro hre)]
  split_ifs <;>
    exact ⟨_, by
      rw [IS.broadcast_to_others_getKey env pid "player_moved" _ hFpid]
      exact getKey_setKey_self _ _ _, rfl, rfl⟩

/-- In the integrated server, a movement message from a connected player
with a working socket that moves the player into a different region still
stores the new position and the new region (the dataclass is mutated in
place before the failure), sends only the `region_changed` notification, and
then raises `AttributeError`: `send_nearby_npcs` looks up
`get_npcs_in_region` on the enhanced NPC manager, which has no such
method. -/
theorem IS.handle_player_movement_region_change (env : IS.Env)
    (st : IS.ServerState) (pid : String) (m : IS.Message) (p : IS.Player)
    (hFpid : env.F pid = false)
    (hconn : getKey st.connected_players pid = some p)
    (hre : IS.get_region_from_position (m.x.getD p.position.x)
      (m.z.getD p.position.z) ≠ p.current_region) :
    ∃ p2, getKey
        (IS.handle_player_movement env st pid m).1.connected_players pid =
        some p2 ∧
      p2.position = { x := m.x.getD p.position.x, y := m.y.getD p.position.y,
                      z := m.z.getD p.position.z } ∧
      p2.current_region = IS.get_region_from_position (m.x.getD p.position.x)
        (m.z.getD p.position.z) ∧
      (IS.handle_player_movement env st pid m).2.1 =
        [Effect.send pid "region_changed"] ∧
      (IS.handle_player_movement env st pid m).2.2 =
        some PyErr.attributeError ∧
      keysOf (IS.handle_player_movement env st pid m).1.connected_players =
        keysOf st.connected_players := by
  have hk : hasKey st.connected_players pid = true := by
    simp [hasKey, hconn]
  unfold IS.handle_player_movement
  rw [hconn]
  simp only [hFpid, Bool.false_eq_true, if_false]
  rw [if_pos hre]
  split_ifs <;>
    exact ⟨_, getKey_setKey_self _ _ _, rfl, rfl, rfl, rfl, by
      rw [keysOf_setKey_of_hasKey _ pid _ (hasKey_setKey _ pid pid _ hk),
        keysOf_setKey_of_hasKey _ pid _ hk]⟩

/-- A region-changing movement message raises out of the handler, so the
websocket loop's broad `except` disconnects the mover: the session ends and
the mover is no longer in `connected_players`. -/
theorem IS.movement_region_change_disconnects (env : IS.Env)
    (st : IS.ServerState) (pid : String) (m : IS.Message) (p : IS.Player)
    (hmt : m.mtype = some "movement") (hFpid : env.F pid = false)
    (hconn : getKey st.connected_players pid = some p)
    (hnd : (keysOf st.connected_players).Nodup)
    (hre : IS.get_region_from_position (m.x.getD p.position.x)
      (m.z.getD p.position.z) ≠ p.current_region) :
    (IS.handle_websocket_message_step env st pid m).2.2 = false ∧
    hasKey (IS.handle_websocket_message_step env st pid m).1.connected_players
      pid = false := by
  obtain ⟨p2, hg2, hpos2, hreg2, heff2, herr2, hkeys2⟩ :=
    IS.handle_player_movement_region_change env st pid m p hFpid hconn hre
  have hnd2 : (keysOf
      (IS.handle_player_movement env st pid m).1.connected_players).Nodup := by
    rw [hkeys2]; exact hnd
  unfold IS.handle_websocket_message_step
  rw [hmt, if_pos rfl]
  refine ⟨?_, ?_⟩ <;> simp only [herr2]
  exact IS.disconnect_player_not_connected env pid _ hnd2

/-- In the base server, a movement message whose `position` object carries
all of x, y, z replaces the stored position exactly (sender's socket
working), and no exception escapes. -/
theorem AB.handle_player_movement_full (env : AB.Env) (st : AB.ServerState)
    (pid : String) (m : AB.Message) (p : AB.Player) (px py pz : ℚ)
    (hg : getKey st.players pid = some p)
    (hpos : m.position = some { x := some px, y := some py, z := some pz })
    (hw : ∀ w, p.websocket = some w → env.Ffail w = false) :
    ∃ p2, getKey (AB.handle_player_movement env st pid m).1.players pid =
        some p2 ∧
      p2.position = { x := px, y := py, z := pz } ∧
      (AB.handle_player_movement env st pid m).2.2 = none := by
  unfold AB.handle_player_movement
  rw [hg, hpos]
  simp only
  by_cases hr : AB.get_region_from_position
      { x := px, y := py, z := pz } ≠ p.current_region
  · rw [if_pos hr]
    exact ⟨_, by
      rw [AB.send_to_player_state2 env pid "region_changed" _
        (fun q hq w hwq => by
          rw [getKey_setKey_self] at hq
          injection hq with hq2
          subst hq2
          exact hw w hwq)]
      rw [AB.broadcast_to_others_players_sender]
      exact getKey_setKey_self _ _ _, rfl, rfl⟩
  · rw [if_neg hr]
    exact ⟨_, by
      rw [AB.broadcast_to_others_players_sender]
      exact getKey_setKey_self _ _ _, rfl, rfl⟩

/-- In the base server, a movement message with no `position` key leaves the
stored player entry unchanged. -/
theorem AB.handle_player_movement_noPos (env : AB.Env) (st : AB.ServerState)
    (pid : String) (m : AB.Message) (p : AB.Player)
    (hg : getKey st.players pid = some p) (hpos : m.position = none) :
    getKey (AB.handle_player_movement env st pid m).1.players pid = some p ∧
    (AB.handle_player_movement env st pid m).2.2 = none := by
  unfold AB.handle_player_movement
  rw [hg, hpos]
  exact ⟨by rw [AB.broadcast_to_others_players_sender]; exact hg, rfl⟩

/-- In the base server, a movement message whose `position` object lacks a
coordinate raises `KeyError` and changes nothing at all. -/
theorem AB.handle_player_movement_missing_coord (env : AB.Env)
    (st : AB.ServerState) (pid : String) (m : AB.Message) (p : AB.Player)
    (pd : AB.PosDict) (hg : getKey st.players pid = some p)
    (hpos : m.position = some pd)
    (hmiss : pd.x = none ∨ pd.y = none ∨ pd.z = none) :
    AB.handle_player_movement env st pid m = (st, [], some PyErr.keyError) := by
  unfold AB.handle_player_movement
  rw [hg, hpos]
  obtain ⟨ox, oy, oz⟩ := pd
  simp only at hmiss
  rcases hmiss with h | h | h
  · subst h; rfl
  · subst h; cases ox <;> rfl
  · subst h; cases ox <;> cases oy <;> rfl

/-- C1 as amended.  Integrated server: handling a movement message from a
connected player (working socket) always mutates the stored position to
exactly the coordinates carried by the message, any coordinate absent from
the message keeping its previous value; when the new position stays in the
player's region no exception escapes, but when it crosses into a different
region the handler — after storing the new position and region and sending
the `region_changed` notification — raises `AttributeError`
(`send_nearby_npcs` looks up `get_npcs_in_region` on the enhanced NPC
manager, which does not define it), and the websocket loop's `except` then
disconnects the mover.  Base server: the position is replaced exactly when
the message's nested `position` object carries all of x, y and z; a message
without the `position` key leaves the entry unchanged; and a `position`
object lacking a coordinate raises `KeyError` with the whole state unchanged
(the present coordinates are NOT applied). -/
theorem claim_C1_amended_movement_updates_position :
    (∀ (env : IS.Env) (st : IS.ServerState) (pid : String) (m : IS.Message)
      (p : IS.Player), env.F pid = false →
      getKey st.connected_players pid = some p →
      IS.get_region_from_position (m.x.getD p.position.x)
        (m.z.getD p.position.z) = p.current_region →
      ∃ p2, getKey
          (IS.handle_player_movement env st pid m).1.connected_players pid =
          some p2 ∧
        p2.position = { x := m.x.getD p.position.x
                        y := m.y.getD p.position.y
                        z := m.z.getD p.position.z } ∧
        (IS.handle_player_movement env st pid m).2.2 = none) ∧
    (∀ (env : IS.Env) (st : IS.ServerState) (pid : String) (m : IS.Message)
      (p : IS.Player), env.F pid = false →
      getKey st.connected_players pid = some p →
      IS.get_region_from_position (m.x.getD p.position.x)
        (m.z.getD p.position.z) ≠ p.current_region →
      ∃ p2, getKey
          (IS.handle_player_movement env st pid m).1.connected_players pid =
          some p2 ∧
        p2.position = { x := m.x.getD p.position.x
                        y := m.y.getD p.position.y
                        z := m.z.getD p.position.z } ∧
        p2.current_region = IS.get_region_from_position
          (m.x.getD p.position.x) (m.z.getD p.position.z) ∧
        (IS.handle_player_movement env st pid m).2.1 =
          [Effect.send pid "region_changed"] ∧
        (IS.handle_player_movement env st pid m).2.2 =
          some PyErr.attributeError) ∧
    (∀ (env : IS.Env) (st : IS.ServerState) (pid : String) (m : IS.Message)
      (p : IS.Player), m.mtype = some "movement" → env.F pid = false →
      getKey st.connected_players pid = some p →
      (keysOf st.connected_players).Nodup →
      IS.get_region_from_position (m.x.getD p.position.x)
        (m.z.getD p.position.z) ≠ p.current_region →
      (IS.handle_websocket_message_step env st pid m).2.2 = false ∧
      hasKey
        (IS.handle_websocket_message_step env st pid m).1.connected_players
        pid = false) ∧
    (∀ (env : AB.Env) (st : AB.ServerState) (pid : String) (m : AB.Message)
      (p : AB.Player) (px py pz : ℚ),
      getKey st.players pid = some p →
      m.position = some { x := some px, y := some py, z := some pz } →
      (∀ w, p.websocket = some w → env.Ffail w = false) →
      ∃ p2, getKey (AB.handle_player_movement env st pid m).1.players pid =
          some p2 ∧
        p2.position = { x := px, y := py, z := pz } ∧
        (AB.handle_player_movement env st pid m).2.2 = none) ∧
    (∀ (env : AB.Env) (st : AB.ServerState) (pid : String) (m : AB.Message)
      (p : AB.Player),
      getKey st.players pid = some p → m.position = none →
      getKey (AB.handle_player_movement env st pid m).1.players pid =
        some p ∧
      (AB.handle_player_movement env st pid m).2.2 = none) ∧
    (∀ (env : AB.Env) (st : AB.ServerState) (pid : String) (m : AB.Message)
      (p : AB.Player) (pd : AB.PosDict),
      getKey st.players pid = some p → m.position = some pd →
      (pd.x = none ∨ pd.y = none ∨ pd.z = none) →
      AB.handle_player_movement env st pid m =
        (st, [], some PyErr.keyError)) :=
  ⟨fun env st pid m p hF hc hre =>
      IS.handle_player_movement_position env st pid m p hF hc hre,
    fun env st pid m p hF hc hre => by
      obtain ⟨p2, h1, h2, h3, h4, h5, _⟩ :=
        IS.handle_player_movement_region_change env st pid m p hF hc hre
      exact ⟨p2, h1, h2, h3, h4, h5⟩,
    fun env st pid m p hmt hF hc hnd hre =>
      IS.movement_region_change_disconnects env st pid m p hmt hF hc hnd hre,
    fun env st pid m p px py pz hg hpos hw =>
      AB.handle_player_movement_full env st pid m p px py pz hg hpos hw,
    fun env st pid m p hg hpos =>
      AB.handle_player_movement_noPos env st pid m p hg hpos,
    fun env st pid m p pd hg hpos hmiss =>
      AB.handle_player_movement_missing_coord env st pid m p pd hg hpos hmiss⟩

/-- C1 counterexample: in `AncientBharatServer.handle_player_movement` a
movement message carrying only x (y and z absent from the nested position
object) raises `KeyError` and leaves the stored position entirely unchanged
at (0,0,0) — the claim demands position (1,0,0), with x stored and y, z at
their previous values. -/
theorem claim_C1_counterexample :
    getKey Wit.abState2.players "p1" = some Wit.abPlayer1 ∧
    Wit.abPlayer1.position = ({} : Position) ∧
    AB.handle_player_movement Wit.abEnvNoFail Wit.abState2 "p1"
      { mtype := some "move", position := some { x := some 1 } } =
      (Wit.abState2, [], some PyErr.keyError) ∧
    ({} : Position) ≠ { x := 1, y := 0, z := 0 } := by
  refine ⟨rfl, rfl, rfl, by decide⟩

/-- Witness for the amended C1: each of the six cases at a concrete input —
an in-region move, a region-crossing move (x = 300 into the Ocean Frontier)
at both the handler and the websocket-loop level, and the three base-server
cases. -/
theorem claim_C1_amended_witness :
    (∃ p2, getKey (IS.handle_player_movement Wit.isEnvNoFail Wit.isState1
        "p1" Wit.isMoveMsg).1.connected_players "p1" = some p2 ∧
      p2.position =
        { x := Wit.isMoveMsg.x.getD (Wit.isPlayer "p1").position.x
          y := Wit.isMoveMsg.y.getD (Wit.isPlayer "p1").position.y
          z := Wit.isMoveMsg.z.getD (Wit.isPlayer "p1").position.z } ∧
      (IS.handle_player_movement Wit.isEnvNoFail Wit.isState1 "p1"
        Wit.isMoveMsg).2.2 = none) ∧
    (∃ p2, getKey (IS.handle_player_movement Wit.isEnvNoFail Wit.isState1
        "p1" Wit.isMoveMsgRC).1.connected_players "p1" = some p2 ∧
      p2.position =
        { x := Wit.isMoveMsgRC.x.getD (Wit.isPlayer "p1").position.x
          y := Wit.isMoveMsgRC.y.getD (Wit.isPlayer "p1").position.y
          z := Wit.isMoveMsgRC.z.getD (Wit.isPlayer "p1").position.z } ∧
      p2.current_region = IS.get_region_from_position
        (Wit.isMoveMsgRC.x.getD (Wit.isPlayer "p1").position.x)
        (Wit.isMoveMsgRC.z.getD (Wit.isPlayer "p1").position.z) ∧
      (IS.handle_player_movement Wit.isEnvNoFail Wit.isState1 "p1"
        Wit.isMoveMsgRC).2.1 = [Effect.send "p1" "region_changed"] ∧
      (IS.handle_player_movement Wit.isEnvNoFail Wit.isState1 "p1"
        Wit.isMoveMsgRC).2.2 = some PyErr.attributeError) ∧
    ((IS.handle_websocket_message_step Wit.isEnvNoFail Wit.isState1 "p1"
        Wit.isMoveMsgRC).2.2 = false ∧
      hasKey (IS.handle_websocket_message_step Wit.isEnvNoFail Wit.isState1
        "p1" Wit.isMoveMsgRC).1.connected_players "p1" = false) ∧
    (∃ p2, getKey (AB.handle_player_movement Wit.abEnvNoFail Wit.abState2
        "p1" Wit.abMoveFull).1.players "p1" = some p2 ∧
      p2.position = { x := 10, y := 3, z := 5 } ∧
      (AB.handle_player_movement Wit.abEnvNoFail Wit.abState2 "p1"
        Wit.abMoveFull).2.2 = none) ∧
    (getKey (AB.handle_player_movement Wit.abEnvNoFail Wit.abState2 "p1"
        Wit.abMoveNoPos).1.players "p1" = some Wit.abPlayer1 ∧
      (AB.handle_player_movement Wit.abEnvNoFail Wit.abState2 "p1"
        Wit.abMoveNoPos).2.2 = none) ∧
    AB.handle_player_movement Wit.abEnvNoFail Wit.abState2 "p1"
      Wit.abMoveMissing = (Wit.abState2, [], some PyErr.keyError) :=
  ⟨claim_C1_amended_movement_updates_position.1 Wit.isEnvNoFail Wit.isState1
      "p1" Wit.isMoveMsg (Wit.isPlayer "p1") rfl rfl (by decide),
    claim_C1_amended_movement_updates_position.2.1 Wit.isEnvNoFail
      Wit.isState1 "p1" Wit.isMoveMsgRC (Wit.isPlayer "p1") rfl rfl
      (by decide),
    claim_C1_amended_movement_updates_position.2.2.1 Wit.isEnvNoFail
      Wit.isState1 "p1" Wit.isMoveMsgRC (Wit.isPlayer "p1") rfl rfl rfl
      (by decide) (by decide),
    claim_C1_amended_movement_updates_position.2.2.2.1 Wit.abEnvNoFail
      Wit.abState2 "p1" Wit.abMoveFull Wit.abPlayer1 10 3 5 rfl rfl
      (fun _ _ => rfl),
    claim_C1_amended_movement_updates_position.2.2.2.2.1 Wit.abEnvNoFail
      Wit.abState2 "p1" Wit.abMoveNoPos Wit.abPlayer1 rfl rfl,
    claim_C1_amended_movement_updates_position.2.2.2.2.2 Wit.abEnvNoFail
      Wit.abState2 "p1" Wit.abMoveMissing Wit.abPlayer1 { y := some 2 }
      rfl rfl (Or.inl rfl)⟩

/-- C6: `generate_model_id` is deterministic — it depends only on the
content type and content name (through the MD5 hex digest, itself a function
of that string); `get_or_create_model` stores every created model in
`model_cache` under that id and, along any reachable history, never evicts
an entry; consequently a second call with the same content name and type
returns the already-cached record (with `last_accessed` refreshed) instead
of creating a new model: no effect is performed and no file changes. -/
theorem claim_C6_model_cache_never_evicts (env : Agent.AgentEnv)
    (now1 now2 : ℚ) (s : Agent.AgentState) (r1 r2 : Agent.ModelRequest)
    (hr : Agent.Reachable env s)
    (hn : r1.content_name = r2.content_name)
    (ht : r1.content_type = r2.content_type) :
    Agent.generate_model_id env r2.content_name r2.content_type =
      Agent.generate_model_id env r1.content_name r1.content_type ∧
    (∀ k, hasKey s.model_cache k = true →
      hasKey (Agent.get_or_create_model env now1 s r1).1.model_cache k =
        true) ∧
    ∃ md, (Agent.get_or_create_model env now1 s r1).2.2 = some md ∧
      getKey (Agent.get_or_create_model env now1 s r1).1.model_cache
        (Agent.generate_model_id env r1.content_name r1.content_type) =
        some md ∧
      (Agent.get_or_create_model env now2
        (Agent.get_or_create_model env now1 s r1).1 r2).2.1 = [] ∧
      (Agent.get_or_create_model env now2
        (Agent.get_or_create_model env now1 s r1).1 r2).1.files =
        (Agent.get_or_create_model env now1 s r1).1.files ∧
      (Agent.get_or_create_model env now2
        (Agent.get_or_create_model env now1 s r1).1 r2).2.2 =
        some { md with last_accessed := now2 } := by
  have hInv := Agent.reachable_inv env s hr
  rcases Agent.get_or_create_spec env now1 s r1 hInv with
    ⟨hInv1, hsub1, hmono, md, hsome, hget⟩
  have hid : Agent.generate_model_id env r2.content_name r2.content_type =
      Agent.generate_model_id env r1.content_name r1.content_type := by
    rw [← hn, ← ht]
  have hfile : md.file_path ∈
      (Agent.get_or_create_model env now1 s r1).1.files :=
    hInv1 _ (IS.getKey_some_mem hget)
  have hget2 : getKey
      (Agent.get_or_create_model env now1 s r1).1.model_cache
      (Agent.generate_model_id env r2.content_name r2.content_type) =
      some md := by
    rw [hid]
    exact hget
  have hc := Agent.get_or_create_cached env now2 _ r2 md hget2 hfile
  exact ⟨hid, hmono, md, hsome, hget, hc.2.2.1, hc.2.1, hc.2.2.2⟩

/-- Witness for C6: a fresh agent and two identical weapon requests. -/
theorem claim_C6_witness :
    Agent.Reachable Wit.agentEnv { model_cache := [], files := [] } ∧
    (∃ md, (Agent.get_or_create_model Wit.agentEnv 0
        { model_cache := [], files := [] } Wit.agentReq).2.2 = some md ∧
      getKey (Agent.get_or_create_model Wit.agentEnv 0
        { model_cache := [], files := [] } Wit.agentReq).1.model_cache
        (Agent.generate_model_id Wit.agentEnv Wit.agentReq.content_name
          Wit.agentReq.content_type) = some md ∧
      (Agent.get_or_create_model Wit.agentEnv 1
        (Agent.get_or_create_model Wit.agentEnv 0
          { model_cache := [], files := [] } Wit.agentReq).1
        Wit.agentReq).2.1 = [] ∧
      (Agent.get_or_create_model Wit.agentEnv 1
        (Agent.get_or_create_model Wit.agentEnv 0
          { model_cache := [], files := [] } Wit.agentReq).1
        Wit.agentReq).1.files =
        (Agent.get_or_create_model Wit.agentEnv 0
          { model_cache := [], files := [] } Wit.agentReq).1.files ∧
      (Agent.get_or_create_model Wit.agentEnv 1
        (Agent.get_or_create_model Wit.agentEnv 0
          { model_cache := [], files := [] } Wit.agentReq).1
        Wit.agentReq).2.2 = some { md with last_accessed := 1 }) :=
  ⟨Agent.Reachable.base,
    (claim_C6_model_cache_never_evicts Wit.agentEnv 0 1
      { model_cache := [], files := [] } Wit.agentReq Wit.agentReq
      Agent.Reachable.base rfl rfl).2.2⟩

/-- C7 (code bug, evaluated at the failing input): `_generate_with_luma_ai`
does perform only the simulated `asyncio.sleep` and a placeholder file write
— but it then constructs `ModelMetadata` with the keyword
`generation_metadata`, which is not a declared field of the dataclass, so
it raises `TypeError` (swallowed by its `except`) and returns `None`
instead of the fabricated metadata record; the request only gets a record
because `get_or_create_model` falls through to `_create_placeholder_model`
(source `PLACEHOLDER`). -/
theorem claim_C7_generation_metadata_typeerror :
    Agent.aiServiceKwargs.contains "generation_metadata" = true ∧
    Agent.modelMetadataFields.contains "generation_metadata" = false ∧
    Agent.generate_with_luma_ai Wit.agentEnv 0 Wit.agentReq
      "weapon_01234567" [] =
      ([Agent.AEffect.sleep (5/2), Agent.AEffect.fileWrite
          "game_data/3d_models/weapons/weapon_01234567_luma.glb"],
        ["game_data/3d_models/weapons/weapon_01234567_luma.glb"], none) ∧
    (Agent.get_or_create_model Wit.agentEnv 0
      { model_cache := [], files := [] } Wit.agentReq).2.2.map
      Agent.ModelMetadata.source = some Agent.ModelSource.placeholder := by
  exact ⟨rfl, rfl, rfl, rfl⟩
